import Mathlib

/-!
Verification of the AlgoGameSim matching engine.

This file gives a shallow embedding of the repository's three source files:

* `logic.py` — `compute_base_match_df`, the scorer that augments an agents
  table with per-attribute distance columns and a `base_score` column;
* `agent.py` — the `Agent` value object with validated construction;
* `content.py` — the `Content` value object (all fields optional).

Python/pandas values that can sit in a table cell or a content mapping are
modelled by `Value` (with `null` for Python `None` and `nan` for a float
NaN); pandas `DataFrame`s are modelled as ordered association lists of
named columns; floats are modelled as rationals.  Propositions below state
and settle the frozen claims about this code.
-/

/-- A Python/pandas scalar as it appears in an agents-table cell or a
content mapping: `null` is Python `None`, `nan` a float NaN, `num` an
int/float, `str` a string, `tag` an enum-like object whose `.value`
attribute holds the given string label. -/
inductive Value where
  | null
  | nan
  | num (q : ℚ)
  | str (s : String)
  | tag (s : String)
deriving Repr, DecidableEq

/-- ASCII lower-casing of one character (models Python `str.lower` on the
ASCII labels used by this code base). -/
def lowerChar (c : Char) : Char :=
  if 65 ≤ c.toNat ∧ c.toNat ≤ 90 then Char.ofNat (c.toNat + 32) else c

/-- Python whitespace recognised by `str.strip`. -/
def isPySpace (c : Char) : Bool :=
  c = ' ' || c = '\t' || c = '\n' || c = '\r' || c = '\x0b' || c = '\x0c'

/-- Drop leading whitespace characters. -/
def dropSpaces : List Char → List Char
  | [] => []
  | c :: cs => if isPySpace c then dropSpaces cs else c :: cs

/-- Python `str.strip()`: remove leading and trailing whitespace. -/
def pyStrip (s : String) : String :=
  ⟨(dropSpaces (dropSpaces s.data.reverse).reverse)⟩

/-- Python `str.lower()` restricted to ASCII. -/
def pyLower (s : String) : String :=
  ⟨s.data.map lowerChar⟩

/-- Python `str(...)` on a cell value, as needed by `_normalize_cultural`
(numbers are rendered as their literal text; integers without a slash). -/
def pyStr : Value → String
  | .null => "None"
  | .nan => "nan"
  | .num q => if q.den = 1 then toString q.num else toString q
  | .str s => s
  | .tag s => s

/-- Digits of a decimal numeral, folded to a natural number; fails on a
non-digit and on the empty list. -/
def digitsToNat : List Char → Option Nat
  | [] => Option.none
  | cs =>
    cs.foldl
      (fun acc c =>
        acc.bind fun n => if c.isDigit then some (n * 10 + (c.toNat - 48)) else Option.none)
      (some 0)

/-- The numeric-string parsing performed by `pd.to_numeric` on the decimal
literals this code can meet: optional sign, then `digits`, `digits.digits`
or `.digits`, with surrounding whitespace tolerated. -/
def parseDecimal (s : String) : Option ℚ :=
  let t := (pyStrip s).data
  let (sgn, u) : ℚ × List Char :=
    match t with
    | '-' :: rest => (-1, rest)
    | '+' :: rest => (1, rest)
    | _ => (1, t)
  match u.splitOn '.' with
  | [ip] => (digitsToNat ip).map fun n => sgn * (n : ℚ)
  | [ip, fp] =>
    if ip = [] then
      (digitsToNat fp).map fun f => sgn * ((f : ℚ) / ((10 : ℚ) ^ fp.length))
    else if fp = [] then
      (digitsToNat ip).map fun n => sgn * (n : ℚ)
    else
      (digitsToNat ip).bind fun n =>
        (digitsToNat fp).map fun f =>
          sgn * ((n : ℚ) + (f : ℚ) / ((10 : ℚ) ^ fp.length))
  | _ => Option.none

/-- `pd.to_numeric(x, errors="coerce")` on one cell, returning `none` for
NaN: missing values, NaNs, unparsable strings and non-numeric objects all
coerce to NaN; numbers pass through; numeric strings are parsed. -/
def to_numeric : Value → Option ℚ
  | .null => Option.none
  | .nan => Option.none
  | .num q => some q
  | .str s => parseDecimal s
  | .tag _ => Option.none

/-- A pandas `DataFrame`: an ordered list of named columns of cells. -/
structure DataFrame where
  cols : List (String × List Value)
deriving Repr, DecidableEq

/-- First column with the given name, as in unique-column pandas lookup. -/
def lookupCol : List (String × List Value) → String → Option (List Value)
  | [], _ => Option.none
  | c :: cs, n => if c.1 = n then some c.2 else lookupCol cs n

/-- `df[n]`: the values of column `n`, if present. -/
def DataFrame.getCol? (df : DataFrame) (n : String) : Option (List Value) :=
  lookupCol df.cols n

/-- The column names, in order. -/
def DataFrame.names (df : DataFrame) : List String :=
  df.cols.map Prod.fst

/-- `df[n] = v`: pandas column assignment replaces an existing column `n`
in place and otherwise appends a new column at the end. -/
def setColAux : List (String × List Value) → String → List Value → List (String × List Value)
  | [], n, v => [(n, v)]
  | c :: cs, n, v => if c.1 = n then (n, v) :: cs else c :: setColAux cs n v

/-- Column assignment on a frame. -/
def DataFrame.setCol (df : DataFrame) (n : String) (v : List Value) : DataFrame :=
  ⟨setColAux df.cols n v⟩

/-- Number of rows (length of the first column; 0 for a column-less frame). -/
def DataFrame.nrows (df : DataFrame) : Nat :=
  match df.cols with
  | [] => 0
  | c :: _ => c.2.length

/-- The cell of column `n` at row `i` (NaN when out of range, matching
aligned pandas indexing on well-formed frames). -/
def DataFrame.entry (df : DataFrame) (n : String) (i : Nat) : Value :=
  ((df.getCol? n).getD []).getD i Value.nan

/-- A frame is well-formed when, as in pandas, all columns share one length
and column names are unique. -/
def DataFrame.WF (df : DataFrame) : Prop :=
  (∀ c ∈ df.cols, c.2.length = df.nrows) ∧ df.names.Nodup

instance (df : DataFrame) : Decidable df.WF := by
  unfold DataFrame.WF; infer_instance

/-- The scorer's content argument (`logic._as_dict` input): Python `None`,
a plain mapping, an object exposing `to_dict()`, or any other object. -/
inductive ContentArg where
  | null
  | mapping (m : List (String × Value))
  | obj (m : List (String × Value))
  | plain
deriving Repr, DecidableEq

/-- `logic._as_dict`: `None` and objects without `to_dict()` become the
empty dict, mappings are copied, `to_dict()` results are used directly. -/
def as_dict : ContentArg → List (String × Value)
  | .null => []
  | .mapping m => m
  | .obj m => m
  | .plain => []

/-- First binding of a key in a dict. -/
def lookupVal : List (String × Value) → String → Option Value
  | [], _ => Option.none
  | p :: ps, k => if p.1 = k then some p.2 else lookupVal ps k

/-- `content_dict.get(attr, None)`. -/
def dict_get (cd : List (String × Value)) (k : String) : Value :=
  (lookupVal cd k).getD Value.null

/-- The per-cell body of `logic._diff_numeric`, given the already coerced
content value `c_num`: coerce the agent cell, return NaN if either side is
NaN, else the absolute difference. -/
def diff_numeric (c_num : Option ℚ) (x : Value) : Value :=
  match to_numeric x, c_num with
  | some xn, some cn => Value.num |xn - cn|
  | _, _ => Value.nan

/-- `logic._normalize_cultural`: `None`/NaN give `None`; an enum-like value
contributes its `.value` label, anything else its raw text, then the text
is stripped and lower-cased. -/
def normalize_cultural : Value → Option String
  | .null => Option.none
  | .nan => Option.none
  | .num q => some (pyLower (pyStrip (pyStr (.num q))))
  | .str s => some (pyLower (pyStrip s))
  | .tag s => some (pyLower (pyStrip s))

/-- `logic._diff_cultural` given the normalized content label `norm_c`:
NaN if either side fails to normalize, else 0.0 on equal labels and 1.0
on different ones. -/
def diff_cultural (norm_c : Option String) (x : Value) : Value :=
  match normalize_cultural x, norm_c with
  | some nx, some nc => Value.num (if nx = nc then 0 else 1)
  | _, _ => Value.nan

/-- Numeric reading of a cell of a `diff_*`/`base_score` column (these
columns hold only numbers and NaN). -/
def numOf : Value → Option ℚ
  | .num q => some q
  | _ => Option.none

/-- `Series.mean(skipna=True)` over one row's cells: the mean of the
non-NaN values, or NaN (here `none`) when every value is missing. -/
def mean_skipna (vs : List Value) : Option ℚ :=
  let qs := vs.filterMap numOf
  if qs.isEmpty then Option.none else some (qs.sum / (qs.length : ℚ))

/-- One row's `base_score` cell: `1 - mean(available diffs)`, NaN when no
diff is available. -/
def base_val (vs : List Value) : Value :=
  match mean_skipna vs with
  | some m => Value.num (1 - m)
  | Option.none => Value.nan

/-- The vectorized `diff_tiered_income` column (logic.py lines 69–78):
when the frame has a `tiered_income` column and the content's tier coerces
to a number, `(pd.to_numeric(df["tiered_income"]) - content_tier).abs()`;
otherwise a whole column of NaN. -/
def tiered_list (df : DataFrame) (cd : List (String × Value)) : List Value :=
  match df.getCol? "tiered_income", to_numeric (dict_get cd "tiered_income") with
  | some col, some t => col.map (diff_numeric (some t))
  | _, _ => List.replicate df.nrows Value.nan

/-- One iteration of the numeric-attribute loop (logic.py lines 85–104):
`df[attr].apply(_diff_numeric)` when the column exists, else a column of
NaN scalars. -/
def num_list (df : DataFrame) (cd : List (String × Value)) (attr : String) : List Value :=
  match df.getCol? attr with
  | some col => col.map (diff_numeric (to_numeric (dict_get cd attr)))
  | Option.none => List.replicate df.nrows Value.nan

/-- The six diff columns feeding the row mean, in the order of `attrs`. -/
def diffColNames : List String :=
  ["diff_tiered_income", "diff_ethics", "diff_politics", "diff_cultural",
   "diff_age", "diff_sex"]

/-- The frame after the first assignment of `compute_base_match_df`:
`df["diff_tiered_income"] = ...` on a copy of the input. -/
def stage1 (df : DataFrame) (cd : List (String × Value)) : DataFrame :=
  df.setCol "diff_tiered_income" (tiered_list df cd)

/-- After `df["diff_ethics"] = df["ethics"].apply(_diff_numeric)` (the
loop reads the frame produced by the previous assignment, as the mutating
pandas code does). -/
def stage2 (df : DataFrame) (cd : List (String × Value)) : DataFrame :=
  (stage1 df cd).setCol "diff_ethics" (num_list (stage1 df cd) cd "ethics")

/-- After `df["diff_politics"] = ...`. -/
def stage3 (df : DataFrame) (cd : List (String × Value)) : DataFrame :=
  (stage2 df cd).setCol "diff_politics" (num_list (stage2 df cd) cd "politics")

/-- After `df["diff_age"] = ...`. -/
def stage4 (df : DataFrame) (cd : List (String × Value)) : DataFrame :=
  (stage3 df cd).setCol "diff_age" (num_list (stage3 df cd) cd "age")

/-- After `df["diff_sex"] = ...`. -/
def stage5 (df : DataFrame) (cd : List (String × Value)) : DataFrame :=
  (stage4 df cd).setCol "diff_sex" (num_list (stage4 df cd) cd "sex")

/-- After `df["diff_cultural"] = df["cultural"].apply(_diff_cultural)`,
given the cells `ccol` that `df["cultural"]` returned. -/
def stage6 (df : DataFrame) (cd : List (String × Value)) (ccol : List Value) : DataFrame :=
  (stage5 df cd).setCol "diff_cultural"
    (ccol.map (diff_cultural (normalize_cultural (dict_get cd "cultural"))))

/-- The `base_score` column: `1 - df[diff_cols].mean(axis=1, skipna=True)`
computed row by row over the six diff columns. -/
def base_score_list (df6 : DataFrame) : List Value :=
  (List.range df6.nrows).map
    (fun i => base_val (diffColNames.map (fun n => df6.entry n i)))

/-- `logic.compute_base_match_df`: copy the frame, assign the vectorized
`diff_tiered_income`, the four per-row numeric diffs, `diff_cultural`
(reading `df["cultural"]` unconditionally — a missing `cultural` column
raises a `KeyError`), then `base_score = 1 - mean` of the six diffs. -/
def compute_base_match_df (agents_df : DataFrame) (content : ContentArg) :
    Except String DataFrame :=
  let cd := as_dict content
  match (stage5 agents_df cd).getCol? "cultural" with
  | Option.none => .error "KeyError: cultural"
  | some ccol =>
    .ok ((stage6 agents_df cd ccol).setCol "base_score"
      (base_score_list (stage6 agents_df cd ccol)))

/-- Python `round` with no digits argument: round half to even. -/
def round_half_even (q : ℚ) : ℤ :=
  let f := q.floor
  let r := q - (f : ℚ)
  if r < 1/2 then f
  else if 1/2 < r then f + 1
  else if f % 2 = 0 then f else f + 1

/-- The cultural enumeration shared by `agent.py` and `content.py`. -/
inductive CulturalEnum where
  | western
  | eastern
  | african
  | indigenous
  | multicultural
deriving Repr, DecidableEq

/-- The `.value` string tag of each member. -/
def CulturalEnum.value : CulturalEnum → String
  | .western => "western"
  | .eastern => "eastern"
  | .african => "african"
  | .indigenous => "indigenous"
  | .multicultural => "multicultural"

/-- `CulturalEnum(s)`: look a member up by its tag. -/
def CulturalEnum.ofValue : String → Option CulturalEnum
  | "western" => some .western
  | "eastern" => some .eastern
  | "african" => some .african
  | "indigenous" => some .indigenous
  | "multicultural" => some .multicultural
  | _ => Option.none

/-- The `cultural` constructor argument: either already a member, or a raw
string passed through `CulturalEnum(...)`. -/
inductive CulturalArg where
  | enum (c : CulturalEnum)
  | raw (s : String)
deriving Repr, DecidableEq

/-- `cultural if isinstance(cultural, CulturalEnum) else CulturalEnum(cultural)`;
an unknown string raises `ValueError("'{s}' is not a valid CulturalEnum")`. -/
def coerce_cultural : CulturalArg → Except String CulturalEnum
  | .enum c => .ok c
  | .raw s =>
    match CulturalEnum.ofValue s with
    | some c => .ok c
    | Option.none => .error ("'" ++ s ++ "' is not a valid CulturalEnum")

/-- `Agent._validate_range` / `Content._validate_range` on a present value. -/
def _validate_range (value min_val max_val : ℚ) (name : String) : Except String ℚ :=
  if min_val ≤ value ∧ value ≤ max_val then .ok value
  else .error (name ++ " must be between " ++ toString min_val ++ " and " ++
    toString max_val ++ ", got " ++ toString value)

/-- `_validate_education`: an integer in [1, 5]. -/
def _validate_education (value : ℤ) : Except String ℤ :=
  if 1 ≤ value ∧ value ≤ 5 then .ok value
  else .error ("education must be an integer between 1 and 5, got " ++ toString value)

/-- `_validate_economic_status`: a number in [10000, 500000], then rounded
to the nearest 5000 (Python `round`, half to even). -/
def _validate_economic_status (value : ℚ) : Except String ℚ :=
  if 10000 ≤ value ∧ value ≤ 500000 then
    .ok ((round_half_even (value / 5000) : ℚ) * 5000)
  else
    .error ("economic_status must be between 10,000 and 500,000, got " ++ toString value)

/-- `_validate_politics`: an integer in [-2, 2]. -/
def _validate_politics (value : ℤ) : Except String ℤ :=
  if -2 ≤ value ∧ value ≤ 2 then .ok value
  else .error ("politics must be an integer between -2 and 2, got " ++ toString value)

/-- `_validate_age`: an integer in [5, 90]. -/
def _validate_age (value : ℤ) : Except String ℤ :=
  if 5 ≤ value ∧ value ≤ 90 then .ok value
  else .error ("age must be an integer between 5 and 90, got " ++ toString value)

/-- `Agent._validate_sex`: 0, 1 or 2. -/
def _validate_sex (value : ℤ) : Except String ℤ :=
  if value = 0 ∨ value = 1 ∨ value = 2 then .ok value
  else .error ("sex must be 0, 1, or 2, got " ++ toString value)

/-- `Content._validate_sex`: 0 or 1. -/
def content_validate_sex (value : ℤ) : Except String ℤ :=
  if value = 0 ∨ value = 1 then .ok value
  else .error ("sex must be 0 or 1, got " ++ toString value)

/-- The arguments of `Agent.__init__` (integer-typed fields carry the
`isinstance(·, int)` requirement in their Lean type). -/
structure AgentArgs where
  agent_id : Option String := Option.none
  education : ℤ := 1
  economic_status : ℚ := 1/2
  ethics : ℚ := 1/2
  politics : ℤ := 0
  cultural : CulturalArg := .enum .western
  age : ℤ := 30
  sex : ℤ := 0
  novelty : ℚ := 1/2
  conscientiousness : ℚ := 1/2
  impulsivity : ℚ := 1/2
  tech_affinity : ℚ := 1/2
  social_trust : ℚ := 1/2
deriving Repr, DecidableEq

/-- A constructed `Agent` (the generated uuid is modelled as an arbitrary
fixed fresh string, since its randomness plays no role in any claim). -/
structure Agent where
  agent_id : String
  education : ℤ
  economic_status : ℚ
  ethics : ℚ
  politics : ℤ
  cultural : CulturalEnum
  age : ℤ
  sex : ℤ
  novelty : ℚ
  conscientiousness : ℚ
  impulsivity : ℚ
  tech_affinity : ℚ
  social_trust : ℚ
deriving Repr, DecidableEq

/-- `Agent.__init__`: validate each field in source order; the first
failing validation raises, so no `Agent` is produced on any violation. -/
def Agent.init (x : AgentArgs) : Except String Agent :=
  let the_id := match x.agent_id with
    | some s => if s = "" then "00000000-0000-4000-8000-000000000000" else s
    | Option.none => "00000000-0000-4000-8000-000000000000"
  match _validate_education x.education with
  | .error e => .error e
  | .ok education =>
  match _validate_economic_status x.economic_status with
  | .error e => .error e
  | .ok economic_status =>
  match _validate_range x.ethics 0 1 "ethics" with
  | .error e => .error e
  | .ok ethics =>
  match _validate_politics x.politics with
  | .error e => .error e
  | .ok politics =>
  match coerce_cultural x.cultural with
  | .error e => .error e
  | .ok cultural =>
  match _validate_age x.age with
  | .error e => .error e
  | .ok age =>
  match _validate_sex x.sex with
  | .error e => .error e
  | .ok sex =>
  match _validate_range x.novelty 0 1 "novelty" with
  | .error e => .error e
  | .ok novelty =>
  match _validate_range x.conscientiousness 0 1 "conscientiousness" with
  | .error e => .error e
  | .ok conscientiousness =>
  match _validate_range x.impulsivity 0 1 "impulsivity" with
  | .error e => .error e
  | .ok impulsivity =>
  match _validate_range x.tech_affinity 0 1 "tech_affinity" with
  | .error e => .error e
  | .ok tech_affinity =>
  match _validate_range x.social_trust 0 1 "social_trust" with
  | .error e => .error e
  | .ok social_trust =>
    .ok { agent_id := the_id, education, economic_status, ethics, politics,
          cultural, age, sex, novelty, conscientiousness, impulsivity,
          tech_affinity, social_trust }

/-- The arguments of `Content.__init__` — same fields, every one optional. -/
structure ContentArgs where
  content_id : Option String := Option.none
  education : Option ℤ := Option.none
  economic_status : Option ℚ := Option.none
  ethics : Option ℚ := Option.none
  politics : Option ℤ := Option.none
  cultural : Option CulturalArg := Option.none
  age : Option ℤ := Option.none
  sex : Option ℤ := Option.none
  novelty : Option ℚ := Option.none
  conscientiousness : Option ℚ := Option.none
  impulsivity : Option ℚ := Option.none
  tech_affinity : Option ℚ := Option.none
  social_trust : Option ℚ := Option.none
deriving Repr, DecidableEq

/-- A constructed `Content`: every field may be absent. -/
structure Content where
  content_id : String
  education : Option ℤ
  economic_status : Option ℚ
  ethics : Option ℚ
  politics : Option ℤ
  cultural : Option CulturalEnum
  age : Option ℤ
  sex : Option ℤ
  novelty : Option ℚ
  conscientiousness : Option ℚ
  impulsivity : Option ℚ
  tech_affinity : Option ℚ
  social_trust : Option ℚ
deriving Repr, DecidableEq

/-- Lift a validator over an optional field: `None` is stored unchanged,
a present value is validated (`self.f = validate(f) if f is not None else None`). -/
def validateOpt (f : α → Except String β) : Option α → Except String (Option β)
  | Option.none => .ok Option.none
  | some v => (f v).map some

/-- `Content.__init__`: identical checks to `Agent` except that every field
may be `None` and `sex` is restricted to {0, 1}. -/
def Content.init (x : ContentArgs) : Except String Content :=
  let the_id := match x.content_id with
    | some s => if s = "" then "00000000-0000-4000-8000-000000000001" else s
    | Option.none => "00000000-0000-4000-8000-000000000001"
  match validateOpt _validate_education x.education with
  | .error e => .error e
  | .ok education =>
  match validateOpt _validate_economic_status x.economic_status with
  | .error e => .error e
  | .ok economic_status =>
  match validateOpt (fun v => _validate_range v 0 1 "ethics") x.ethics with
  | .error e => .error e
  | .ok ethics =>
  match validateOpt _validate_politics x.politics with
  | .error e => .error e
  | .ok politics =>
  match validateOpt coerce_cultural x.cultural with
  | .error e => .error e
  | .ok cultural =>
  match validateOpt _validate_age x.age with
  | .error e => .error e
  | .ok age =>
  match validateOpt content_validate_sex x.sex with
  | .error e => .error e
  | .ok sex =>
  match validateOpt (fun v => _validate_range v 0 1 "novelty") x.novelty with
  | .error e => .error e
  | .ok novelty =>
  match validateOpt (fun v => _validate_range v 0 1 "conscientiousness") x.conscientiousness with
  | .error e => .error e
  | .ok conscientiousness =>
  match validateOpt (fun v => _validate_range v 0 1 "impulsivity") x.impulsivity with
  | .error e => .error e
  | .ok impulsivity =>
  match validateOpt (fun v => _validate_range v 0 1 "tech_affinity") x.tech_affinity with
  | .error e => .error e
  | .ok tech_affinity =>
  match validateOpt (fun v => _validate_range v 0 1 "social_trust") x.social_trust with
  | .error e => .error e
  | .ok social_trust =>
    .ok { content_id := the_id, education, economic_status, ethics, politics,
          cultural, age, sex, novelty, conscientiousness, impulsivity,
          tech_affinity, social_trust }

/-- The seven columns the scorer appends. -/
def newColNames : List String :=
  ["diff_tiered_income", "diff_ethics", "diff_politics", "diff_age",
   "diff_sex", "diff_cultural", "base_score"]

/-- The numeric-distance rule of the spec, per row: the diff cell holds
`|agent − content|` when both sides coerce to numbers, and NaN when either
side is missing, non-numeric or unparsable. -/
def numericRuleOK (df : DataFrame) (c : ContentArg) (out : DataFrame)
    (attr dname : String) : Prop :=
  ∀ i, i < df.nrows →
    (∀ x y, to_numeric (((df.getCol? attr).getD []).getD i Value.null) = some x →
      to_numeric (dict_get (as_dict c) attr) = some y →
      out.entry dname i = Value.num |x - y|) ∧
    ((to_numeric (((df.getCol? attr).getD []).getD i Value.null) = Option.none ∨
      to_numeric (dict_get (as_dict c) attr) = Option.none) →
      out.entry dname i = Value.nan)

/-- The per-row numeric-distance rule for `tiered_income` as the spec words
it: coerce the agent's cell of the `tiered_income` column (a missing column
or cell reads as missing) and the content's tiered-income value, take the
absolute difference, and yield NaN when either side is undefined. -/
def rowwise_tiered_spec (df : DataFrame) (cd : List (String × Value)) (i : Nat) : Value :=
  match to_numeric (((df.getCol? "tiered_income").getD []).getD i Value.null),
        to_numeric (dict_get cd "tiered_income") with
  | some a, some b => Value.num |a - b|
  | _, _ => Value.nan

/-- Validity of a `cultural` constructor argument: enum members are always
valid, strings must name a member. -/
def culturalArgValid : CulturalArg → Prop
  | .enum _ => True
  | .raw s => (CulturalEnum.ofValue s).isSome = true

instance : ∀ ca : CulturalArg, Decidable (culturalArgValid ca) := fun ca => by
  unfold culturalArgValid
  cases ca <;> infer_instance

/-- A predicate holding vacuously on an absent optional value. -/
def optionHolds (p : α → Prop) : Option α → Prop
  | Option.none => True
  | some v => p v

instance {p : α → Prop} [DecidablePred p] : ∀ o : Option α, Decidable (optionHolds p o) :=
  fun o => by cases o <;> simp only [optionHolds] <;> infer_instance

/-- All of `Agent.__init__`'s declared bounds hold on the arguments. -/
def agentArgsValid (x : AgentArgs) : Prop :=
  (1 ≤ x.education ∧ x.education ≤ 5) ∧
  (10000 ≤ x.economic_status ∧ x.economic_status ≤ 500000) ∧
  (0 ≤ x.ethics ∧ x.ethics ≤ 1) ∧
  (-2 ≤ x.politics ∧ x.politics ≤ 2) ∧
  culturalArgValid x.cultural ∧
  (5 ≤ x.age ∧ x.age ≤ 90) ∧
  (x.sex = 0 ∨ x.sex = 1 ∨ x.sex = 2) ∧
  (0 ≤ x.novelty ∧ x.novelty ≤ 1) ∧
  (0 ≤ x.conscientiousness ∧ x.conscientiousness ≤ 1) ∧
  (0 ≤ x.impulsivity ∧ x.impulsivity ≤ 1) ∧
  (0 ≤ x.tech_affinity ∧ x.tech_affinity ≤ 1) ∧
  (0 ≤ x.social_trust ∧ x.social_trust ≤ 1)

instance (x : AgentArgs) : Decidable (agentArgsValid x) := by
  unfold agentArgsValid
  infer_instance

/-- Every field of a constructed `Agent` satisfies its declared bound. -/
def agentBounds (a : Agent) : Prop :=
  (1 ≤ a.education ∧ a.education ≤ 5) ∧
  (10000 ≤ a.economic_status ∧ a.economic_status ≤ 500000) ∧
  (0 ≤ a.ethics ∧ a.ethics ≤ 1) ∧
  (-2 ≤ a.politics ∧ a.politics ≤ 2) ∧
  (5 ≤ a.age ∧ a.age ≤ 90) ∧
  (a.sex = 0 ∨ a.sex = 1 ∨ a.sex = 2) ∧
  (0 ≤ a.novelty ∧ a.novelty ≤ 1) ∧
  (0 ≤ a.conscientiousness ∧ a.conscientiousness ≤ 1) ∧
  (0 ≤ a.impulsivity ∧ a.impulsivity ≤ 1) ∧
  (0 ≤ a.tech_affinity ∧ a.tech_affinity ≤ 1) ∧
  (0 ≤ a.social_trust ∧ a.social_trust ≤ 1)

/-- All of `Content.__init__`'s declared bounds hold on the present
arguments (`sex`, when present, must be 0 or 1). -/
def contentArgsValid (y : ContentArgs) : Prop :=
  optionHolds (fun v : ℤ => 1 ≤ v ∧ v ≤ 5) y.education ∧
  optionHolds (fun v : ℚ => 10000 ≤ v ∧ v ≤ 500000) y.economic_status ∧
  optionHolds (fun v : ℚ => 0 ≤ v ∧ v ≤ 1) y.ethics ∧
  optionHolds (fun v : ℤ => -2 ≤ v ∧ v ≤ 2) y.politics ∧
  optionHolds culturalArgValid y.cultural ∧
  optionHolds (fun v : ℤ => 5 ≤ v ∧ v ≤ 90) y.age ∧
  optionHolds (fun v : ℤ => v = 0 ∨ v = 1) y.sex ∧
  optionHolds (fun v : ℚ => 0 ≤ v ∧ v ≤ 1) y.novelty ∧
  optionHolds (fun v : ℚ => 0 ≤ v ∧ v ≤ 1) y.conscientiousness ∧
  optionHolds (fun v : ℚ => 0 ≤ v ∧ v ≤ 1) y.impulsivity ∧
  optionHolds (fun v : ℚ => 0 ≤ v ∧ v ≤ 1) y.tech_affinity ∧
  optionHolds (fun v : ℚ => 0 ≤ v ∧ v ≤ 1) y.social_trust

instance (y : ContentArgs) : Decidable (contentArgsValid y) := by
  unfold contentArgsValid
  infer_instance

/-- Every present field of a constructed `Content` satisfies its declared
bound; in particular a present `sex` is 0 or 1. -/
def contentBounds (cnt : Content) : Prop :=
  optionHolds (fun v : ℤ => 1 ≤ v ∧ v ≤ 5) cnt.education ∧
  optionHolds (fun v : ℚ => 10000 ≤ v ∧ v ≤ 500000) cnt.economic_status ∧
  optionHolds (fun v : ℚ => 0 ≤ v ∧ v ≤ 1) cnt.ethics ∧
  optionHolds (fun v : ℤ => -2 ≤ v ∧ v ≤ 2) cnt.politics ∧
  optionHolds (fun v : ℤ => 5 ≤ v ∧ v ≤ 90) cnt.age ∧
  optionHolds (fun v : ℤ => v = 0 ∨ v = 1) cnt.sex ∧
  optionHolds (fun v : ℚ => 0 ≤ v ∧ v ≤ 1) cnt.novelty ∧
  optionHolds (fun v : ℚ => 0 ≤ v ∧ v ≤ 1) cnt.conscientiousness ∧
  optionHolds (fun v : ℚ => 0 ≤ v ∧ v ≤ 1) cnt.impulsivity ∧
  optionHolds (fun v : ℚ => 0 ≤ v ∧ v ≤ 1) cnt.tech_affinity ∧
  optionHolds (fun v : ℚ => 0 ≤ v ∧ v ≤ 1) cnt.social_trust

/-- Whether the named constructor argument of `Agent.__init__` violates
its declared bound. -/
def agentFieldInvalid (x : AgentArgs) : String → Prop
  | "education" => ¬(1 ≤ x.education ∧ x.education ≤ 5)
  | "economic_status" => ¬(10000 ≤ x.economic_status ∧ x.economic_status ≤ 500000)
  | "ethics" => ¬(0 ≤ x.ethics ∧ x.ethics ≤ 1)
  | "politics" => ¬(-2 ≤ x.politics ∧ x.politics ≤ 2)
  | "cultural" => ¬ culturalArgValid x.cultural
  | "age" => ¬(5 ≤ x.age ∧ x.age ≤ 90)
  | "sex" => ¬(x.sex = 0 ∨ x.sex = 1 ∨ x.sex = 2)
  | "novelty" => ¬(0 ≤ x.novelty ∧ x.novelty ≤ 1)
  | "conscientiousness" => ¬(0 ≤ x.conscientiousness ∧ x.conscientiousness ≤ 1)
  | "impulsivity" => ¬(0 ≤ x.impulsivity ∧ x.impulsivity ≤ 1)
  | "tech_affinity" => ¬(0 ≤ x.tech_affinity ∧ x.tech_affinity ≤ 1)
  | "social_trust" => ¬(0 ≤ x.social_trust ∧ x.social_trust ≤ 1)
  | _ => False

/-- The `ValueError` message `Agent.__init__` raises for the named field
(the range messages interpolate the field's own name; the `cultural` slot
raises the enum-conversion message). -/
def agentErrMsg (x : AgentArgs) : String → String
  | "education" => "education must be an integer between 1 and 5, got " ++
      toString x.education
  | "economic_status" => "economic_status must be between 10,000 and 500,000, got " ++
      toString x.economic_status
  | "ethics" => "ethics" ++ " must be between " ++ toString (0 : ℚ) ++ " and " ++
      toString (1 : ℚ) ++ ", got " ++ toString x.ethics
  | "politics" => "politics must be an integer between -2 and 2, got " ++
      toString x.politics
  | "cultural" =>
    match x.cultural with
    | .raw s => "'" ++ s ++ "' is not a valid CulturalEnum"
    | .enum _ => ""
  | "age" => "age must be an integer between 5 and 90, got " ++ toString x.age
  | "sex" => "sex must be 0, 1, or 2, got " ++ toString x.sex
  | "novelty" => "novelty" ++ " must be between " ++ toString (0 : ℚ) ++ " and " ++
      toString (1 : ℚ) ++ ", got " ++ toString x.novelty
  | "conscientiousness" => "conscientiousness" ++ " must be between " ++
      toString (0 : ℚ) ++ " and " ++ toString (1 : ℚ) ++ ", got " ++
      toString x.conscientiousness
  | "impulsivity" => "impulsivity" ++ " must be between " ++ toString (0 : ℚ) ++
      " and " ++ toString (1 : ℚ) ++ ", got " ++ toString x.impulsivity
  | "tech_affinity" => "tech_affinity" ++ " must be between " ++ toString (0 : ℚ) ++
      " and " ++ toString (1 : ℚ) ++ ", got " ++ toString x.tech_affinity
  | "social_trust" => "social_trust" ++ " must be between " ++ toString (0 : ℚ) ++
      " and " ++ toString (1 : ℚ) ++ ", got " ++ toString x.social_trust
  | _ => ""

/-- As `agentFieldInvalid`, for `Content.__init__` (absent fields are
never invalid; a present `sex` must be 0 or 1). -/
def contentFieldInvalid (y : ContentArgs) : String → Prop
  | "education" => ¬ optionHolds (fun v : ℤ => 1 ≤ v ∧ v ≤ 5) y.education
  | "economic_status" =>
    ¬ optionHolds (fun v : ℚ => 10000 ≤ v ∧ v ≤ 500000) y.economic_status
  | "ethics" => ¬ optionHolds (fun v : ℚ => 0 ≤ v ∧ v ≤ 1) y.ethics
  | "politics" => ¬ optionHolds (fun v : ℤ => -2 ≤ v ∧ v ≤ 2) y.politics
  | "cultural" => ¬ optionHolds culturalArgValid y.cultural
  | "age" => ¬ optionHolds (fun v : ℤ => 5 ≤ v ∧ v ≤ 90) y.age
  | "sex" => ¬ optionHolds (fun v : ℤ => v = 0 ∨ v = 1) y.sex
  | "novelty" => ¬ optionHolds (fun v : ℚ => 0 ≤ v ∧ v ≤ 1) y.novelty
  | "conscientiousness" =>
    ¬ optionHolds (fun v : ℚ => 0 ≤ v ∧ v ≤ 1) y.conscientiousness
  | "impulsivity" => ¬ optionHolds (fun v : ℚ => 0 ≤ v ∧ v ≤ 1) y.impulsivity
  | "tech_affinity" => ¬ optionHolds (fun v : ℚ => 0 ≤ v ∧ v ≤ 1) y.tech_affinity
  | "social_trust" => ¬ optionHolds (fun v : ℚ => 0 ≤ v ∧ v ≤ 1) y.social_trust
  | _ => False

/-- The `ValueError` message `Content.__init__` raises for the named field
on its present value (Content's `sex` message differs from Agent's). -/
def contentErrMsg (y : ContentArgs) : String → String
  | "education" => "education must be an integer between 1 and 5, got " ++
      toString ((y.education).getD 0)
  | "economic_status" => "economic_status must be between 10,000 and 500,000, got " ++
      toString ((y.economic_status).getD 0)
  | "ethics" => "ethics" ++ " must be between " ++ toString (0 : ℚ) ++ " and " ++
      toString (1 : ℚ) ++ ", got " ++ toString ((y.ethics).getD 0)
  | "politics" => "politics must be an integer between -2 and 2, got " ++
      toString ((y.politics).getD 0)
  | "cultural" =>
    match y.cultural with
    | some (.raw s) => "'" ++ s ++ "' is not a valid CulturalEnum"
    | _ => ""
  | "age" => "age must be an integer between 5 and 90, got " ++
      toString ((y.age).getD 0)
  | "sex" => "sex must be 0 or 1, got " ++ toString ((y.sex).getD 0)
  | "novelty" => "novelty" ++ " must be between " ++ toString (0 : ℚ) ++ " and " ++
      toString (1 : ℚ) ++ ", got " ++ toString ((y.novelty).getD 0)
  | "conscientiousness" => "conscientiousness" ++ " must be between " ++
      toString (0 : ℚ) ++ " and " ++ toString (1 : ℚ) ++ ", got " ++
      toString ((y.conscientiousness).getD 0)
  | "impulsivity" => "impulsivity" ++ " must be between " ++ toString (0 : ℚ) ++
      " and " ++ toString (1 : ℚ) ++ ", got " ++ toString ((y.impulsivity).getD 0)
  | "tech_affinity" => "tech_affinity" ++ " must be between " ++ toString (0 : ℚ) ++
      " and " ++ toString (1 : ℚ) ++ ", got " ++ toString ((y.tech_affinity).getD 0)
  | "social_trust" => "social_trust" ++ " must be between " ++ toString (0 : ℚ) ++
      " and " ++ toString (1 : ℚ) ++ ", got " ++ toString ((y.social_trust).getD 0)
  | _ => ""

theorem getD_map_lt {α β : Type} (f : α → β) (l : List α) (i : Nat)
    (h : i < l.length) (d : β) (d' : α) :
    (l.map f).getD i d = f (l.getD i d') := by
  simp only [List.getD_eq_getElem?_getD, List.getElem?_map]
  rw [List.getElem?_eq_getElem h]
  simp

theorem getD_replicate_lt {α : Type} (n : Nat) (a : α) (i : Nat) (h : i < n) (d : α) :
    (List.replicate n a).getD i d = a := by
  simp only [List.getD_eq_getElem?_getD]
  rw [List.getElem?_eq_getElem (by simpa using h)]
  simp

theorem lookupCol_setColAux_self (l : List (String × List Value)) (n : String)
    (v : List Value) : lookupCol (setColAux l n v) n = some v := by
  induction l with
  | nil => simp [setColAux, lookupCol]
  | cons c cs ih =>
    by_cases h : c.1 = n
    · simp [setColAux, h, lookupCol]
    · simp [setColAux, h, lookupCol, ih]

theorem lookupCol_setColAux_ne (l : List (String × List Value)) (n m : String)
    (v : List Value) (h : m ≠ n) :
    lookupCol (setColAux l n v) m = lookupCol l m := by
  induction l with
  | nil => simp [setColAux, lookupCol, Ne.symm h]
  | cons c cs ih =>
    by_cases hc : c.1 = n
    · subst hc
      simp [setColAux, lookupCol, Ne.symm h]
    · by_cases hm : c.1 = m
      · simp [setColAux, hc, lookupCol, hm, h]
      · simp [setColAux, hc, lookupCol, hm, ih]

theorem getCol?_setCol_self (df : DataFrame) (n : String) (v : List Value) :
    (df.setCol n v).getCol? n = some v :=
  lookupCol_setColAux_self df.cols n v

theorem getCol?_setCol_ne (df : DataFrame) (n m : String) (v : List Value)
    (h : m ≠ n) : (df.setCol n v).getCol? m = df.getCol? m :=
  lookupCol_setColAux_ne df.cols n m v h

theorem mem_setColAux (l : List (String × List Value)) (n : String)
    (v : List Value) (c : String × List Value) (hc : c ∈ setColAux l n v) :
    c = (n, v) ∨ c ∈ l := by
  induction l with
  | nil => simpa [setColAux] using hc
  | cons d ds ih =>
    by_cases h : d.1 = n
    · simp only [setColAux, if_pos h, List.mem_cons] at hc
      rcases hc with h1 | h1
      · exact Or.inl h1
      · exact Or.inr (List.mem_cons_of_mem _ h1)
    · simp only [setColAux, if_neg h, List.mem_cons] at hc
      rcases hc with h1 | h1
      · exact Or.inr (h1 ▸ List.mem_cons_self _ _)
      · rcases ih h1 with h2 | h2
        · exact Or.inl h2
        · exact Or.inr (List.mem_cons_of_mem _ h2)

theorem names_setColAux (l : List (String × List Value)) (n : String)
    (v : List Value) :
    (setColAux l n v).map Prod.fst =
      (if n ∈ l.map Prod.fst then l.map Prod.fst else l.map Prod.fst ++ [n]) := by
  induction l with
  | nil => simp [setColAux]
  | cons c cs ih =>
    by_cases h : c.1 = n
    · simp [setColAux, h]
    · simp only [setColAux, if_neg h, List.map_cons, ih, List.mem_cons]
      by_cases hm : n ∈ cs.map Prod.fst
      · simp [hm, Ne.symm h]
      · simp [hm, Ne.symm h]

theorem nrows_setCol (df : DataFrame) (n : String) (v : List Value)
    (hv : v.length = df.nrows) : (df.setCol n v).nrows = df.nrows := by
  rcases df with ⟨cols⟩
  cases cols with
  | nil => simpa [DataFrame.setCol, setColAux, DataFrame.nrows] using hv
  | cons c cs =>
    by_cases h : c.1 = n
    · simpa [DataFrame.setCol, setColAux, h, DataFrame.nrows] using hv
    · simp [DataFrame.setCol, setColAux, h, DataFrame.nrows]

theorem WF_setCol (df : DataFrame) (n : String) (v : List Value)
    (hwf : df.WF) (hv : v.length = df.nrows) : (df.setCol n v).WF := by
  obtain ⟨hlen, hnd⟩ := hwf
  constructor
  · intro c hc
    rw [nrows_setCol df n v hv]
    rcases mem_setColAux df.cols n v c hc with h | h
    · simpa [h] using hv
    · exact hlen c h
  · show ((df.setCol n v).cols.map Prod.fst).Nodup
    have : (df.setCol n v).cols.map Prod.fst =
        (if n ∈ df.cols.map Prod.fst then df.cols.map Prod.fst
         else df.cols.map Prod.fst ++ [n]) := names_setColAux df.cols n v
    rw [this]
    by_cases hm : n ∈ df.cols.map Prod.fst
    · simpa [hm] using hnd
    · simp only [if_neg hm]
      exact List.Nodup.append hnd (List.nodup_singleton n)
        (by simpa [List.disjoint_singleton] using hm)

theorem setCol_not_mem (df : DataFrame) (n : String) (v : List Value)
    (h : n ∉ df.names) : (df.setCol n v).cols = df.cols ++ [(n, v)] := by
  rcases df with ⟨cols⟩
  simp only [DataFrame.names, DataFrame.setCol] at *
  induction cols with
  | nil => simp [setColAux]
  | cons c cs ih =>
    simp only [List.map_cons, List.mem_cons] at h
    push_neg at h
    simp [setColAux, Ne.symm h.1, ih h.2]

theorem mem_names_iff (df : DataFrame) (n : String) :
    n ∈ df.names ↔ ∃ l, df.getCol? n = some l := by
  rcases df with ⟨cols⟩
  simp only [DataFrame.names, DataFrame.getCol?]
  induction cols with
  | nil => simp [lookupCol]
  | cons c cs ih =>
    by_cases h : c.1 = n
    · simp [lookupCol, h]
    · simp [lookupCol, h, ih, Ne.symm h]

theorem lookupCol_mem (l : List (String × List Value)) (n : String)
    (v : List Value) (h : lookupCol l n = some v) : (n, v) ∈ l := by
  induction l with
  | nil => simp [lookupCol] at h
  | cons c cs ih =>
    by_cases hc : c.1 = n
    · simp only [lookupCol, if_pos hc, Option.some.injEq] at h
      have hcv : c = (n, v) := by
        rcases c with ⟨c1, c2⟩
        simp_all
      rw [← hcv]
      exact List.mem_cons_self c cs
    · simp only [lookupCol, if_neg hc] at h
      exact List.mem_cons_of_mem _ (ih h)

theorem getCol?_length (df : DataFrame) (n : String) (l : List Value)
    (hwf : df.WF) (h : df.getCol? n = some l) : l.length = df.nrows :=
  hwf.1 (n, l) (lookupCol_mem df.cols n l h)

theorem tiered_list_length (df : DataFrame) (cd : List (String × Value))
    (hwf : df.WF) : (tiered_list df cd).length = df.nrows := by
  unfold tiered_list
  split
  · next col t hcol ht => simpa using getCol?_length df _ col hwf hcol
  · simp

theorem num_list_length (df : DataFrame) (cd : List (String × Value))
    (attr : String) (hwf : df.WF) : (num_list df cd attr).length = df.nrows := by
  unfold num_list
  split
  · next col hcol => simpa using getCol?_length df _ col hwf hcol
  · simp

theorem num_list_congr (d df : DataFrame) (cd : List (String × Value)) (attr : String)
    (hcol : d.getCol? attr = df.getCol? attr) (hn : d.nrows = df.nrows) :
    num_list d cd attr = num_list df cd attr := by
  unfold num_list
  rw [hcol, hn]

theorem setCol_spec (df : DataFrame) (n : String) (v : List Value)
    (hwf : df.WF) (hv : v.length = df.nrows) :
    (df.setCol n v).WF ∧ (df.setCol n v).nrows = df.nrows ∧
      (df.setCol n v).getCol? n = some v ∧
      ∀ m, m ≠ n → (df.setCol n v).getCol? m = df.getCol? m :=
  ⟨WF_setCol df n v hwf hv, nrows_setCol df n v hv, getCol?_setCol_self df n v,
    fun m hm => getCol?_setCol_ne df n m v hm⟩

theorem stage1_spec (df : DataFrame) (cd : List (String × Value)) (hwf : df.WF) :
    (stage1 df cd).WF ∧ (stage1 df cd).nrows = df.nrows ∧
      (stage1 df cd).getCol? "diff_tiered_income" = some (tiered_list df cd) ∧
      ∀ m, m ≠ "diff_tiered_income" → (stage1 df cd).getCol? m = df.getCol? m :=
  setCol_spec df _ _ hwf (tiered_list_length df cd hwf)

theorem stage2_spec (df : DataFrame) (cd : List (String × Value)) (hwf : df.WF) :
    (stage2 df cd).WF ∧ (stage2 df cd).nrows = df.nrows ∧
      (stage2 df cd).getCol? "diff_ethics" = some (num_list df cd "ethics") ∧
      (stage2 df cd).getCol? "diff_tiered_income" = some (tiered_list df cd) ∧
      ∀ m, m ≠ "diff_ethics" → m ≠ "diff_tiered_income" →
        (stage2 df cd).getCol? m = df.getCol? m := by
  obtain ⟨w1, n1, g1, p1⟩ := stage1_spec df cd hwf
  have hnl : num_list (stage1 df cd) cd "ethics" = num_list df cd "ethics" :=
    num_list_congr _ df cd "ethics" (p1 "ethics" (by decide)) n1
  have hv : (num_list (stage1 df cd) cd "ethics").length = (stage1 df cd).nrows := by
    rw [hnl, n1]
    exact num_list_length df cd "ethics" hwf
  obtain ⟨w2, n2, g2, p2⟩ := setCol_spec (stage1 df cd) "diff_ethics" _ w1 hv
  refine ⟨w2, by rw [show stage2 df cd = (stage1 df cd).setCol "diff_ethics"
      (num_list (stage1 df cd) cd "ethics") from rfl] at *; rw [n2, n1], ?_, ?_, ?_⟩
  · show (stage2 df cd).getCol? "diff_ethics" = _
    rw [show stage2 df cd = (stage1 df cd).setCol "diff_ethics"
      (num_list (stage1 df cd) cd "ethics") from rfl, g2, hnl]
  · rw [show stage2 df cd = (stage1 df cd).setCol "diff_ethics"
      (num_list (stage1 df cd) cd "ethics") from rfl, p2 _ (by decide)]
    exact g1
  · intro m hm1 hm2
    rw [show stage2 df cd = (stage1 df cd).setCol "diff_ethics"
      (num_list (stage1 df cd) cd "ethics") from rfl, p2 m hm1]
    exact p1 m hm2

theorem stageStep (d df : DataFrame) (cd : List (String × Value))
    (attr colName : String) (hwfd : d.WF) (hn : d.nrows = df.nrows)
    (hattr : d.getCol? attr = df.getCol? attr) (hwf : df.WF) :
    (d.setCol colName (num_list d cd attr)).WF ∧
      (d.setCol colName (num_list d cd attr)).nrows = df.nrows ∧
      (d.setCol colName (num_list d cd attr)).getCol? colName = some (num_list df cd attr) ∧
      ∀ m, m ≠ colName → (d.setCol colName (num_list d cd attr)).getCol? m = d.getCol? m := by
  have hnl : num_list d cd attr = num_list df cd attr :=
    num_list_congr d df cd attr hattr hn
  have hv : (num_list d cd attr).length = d.nrows := by
    rw [hnl, hn]
    exact num_list_length df cd attr hwf
  obtain ⟨w, n, g, p⟩ := setCol_spec d colName _ hwfd hv
  exact ⟨w, by rw [n, hn], by rw [g, hnl], p⟩

theorem stage3_spec (df : DataFrame) (cd : List (String × Value)) (hwf : df.WF) :
    (stage3 df cd).WF ∧ (stage3 df cd).nrows = df.nrows ∧
      (stage3 df cd).getCol? "diff_politics" = some (num_list df cd "politics") ∧
      (stage3 df cd).getCol? "diff_ethics" = some (num_list df cd "ethics") ∧
      (stage3 df cd).getCol? "diff_tiered_income" = some (tiered_list df cd) ∧
      ∀ m, m ≠ "diff_politics" → m ≠ "diff_ethics" → m ≠ "diff_tiered_income" →
        (stage3 df cd).getCol? m = df.getCol? m := by
  obtain ⟨w2, n2, g2e, g2t, p2⟩ := stage2_spec df cd hwf
  obtain ⟨w3, n3, g3, p3⟩ := stageStep (stage2 df cd) df cd "politics" "diff_politics"
    w2 n2 (p2 "politics" (by decide) (by decide)) hwf
  have hs : stage3 df cd = (stage2 df cd).setCol "diff_politics"
      (num_list (stage2 df cd) cd "politics") := rfl
  rw [hs]
  refine ⟨w3, n3, g3, ?_, ?_, ?_⟩
  · rw [p3 _ (by decide)]
    exact g2e
  · rw [p3 _ (by decide)]
    exact g2t
  · intro m h1 h2 h3
    rw [p3 m h1]
    exact p2 m h2 h3

theorem stage4_spec (df : DataFrame) (cd : List (String × Value)) (hwf : df.WF) :
    (stage4 df cd).WF ∧ (stage4 df cd).nrows = df.nrows ∧
      (stage4 df cd).getCol? "diff_age" = some (num_list df cd "age") ∧
      (stage4 df cd).getCol? "diff_politics" = some (num_list df cd "politics") ∧
      (stage4 df cd).getCol? "diff_ethics" = some (num_list df cd "ethics") ∧
      (stage4 df cd).getCol? "diff_tiered_income" = some (tiered_list df cd) ∧
      ∀ m, m ≠ "diff_age" → m ≠ "diff_politics" → m ≠ "diff_ethics" →
        m ≠ "diff_tiered_income" → (stage4 df cd).getCol? m = df.getCol? m := by
  obtain ⟨w3, n3, g3p, g3e, g3t, p3⟩ := stage3_spec df cd hwf
  obtain ⟨w4, n4, g4, p4⟩ := stageStep (stage3 df cd) df cd "age" "diff_age"
    w3 n3 (p3 "age" (by decide) (by decide) (by decide)) hwf
  have hs : stage4 df cd = (stage3 df cd).setCol "diff_age"
      (num_list (stage3 df cd) cd "age") := rfl
  rw [hs]
  refine ⟨w4, n4, g4, ?_, ?_, ?_, ?_⟩
  · rw [p4 _ (by decide)]
    exact g3p
  · rw [p4 _ (by decide)]
    exact g3e
  · rw [p4 _ (by decide)]
    exact g3t
  · intro m h1 h2 h3 h4
    rw [p4 m h1]
    exact p3 m h2 h3 h4

theorem stage5_spec (df : DataFrame) (cd : List (String × Value)) (hwf : df.WF) :
    (stage5 df cd).WF ∧ (stage5 df cd).nrows = df.nrows ∧
      (stage5 df cd).getCol? "diff_sex" = some (num_list df cd "sex") ∧
      (stage5 df cd).getCol? "diff_age" = some (num_list df cd "age") ∧
      (stage5 df cd).getCol? "diff_politics" = some (num_list df cd "politics") ∧
      (stage5 df cd).getCol? "diff_ethics" = some (num_list df cd "ethics") ∧
      (stage5 df cd).getCol? "diff_tiered_income" = some (tiered_list df cd) ∧
      ∀ m, m ≠ "diff_sex" → m ≠ "diff_age" → m ≠ "diff_politics" → m ≠ "diff_ethics" →
        m ≠ "diff_tiered_income" → (stage5 df cd).getCol? m = df.getCol? m := by
  obtain ⟨w4, n4, g4a, g4p, g4e, g4t, p4⟩ := stage4_spec df cd hwf
  obtain ⟨w5, n5, g5, p5⟩ := stageStep (stage4 df cd) df cd "sex" "diff_sex"
    w4 n4 (p4 "sex" (by decide) (by decide) (by decide) (by decide)) hwf
  have hs : stage5 df cd = (stage4 df cd).setCol "diff_sex"
      (num_list (stage4 df cd) cd "sex") := rfl
  rw [hs]
  refine ⟨w5, n5, g5, ?_, ?_, ?_, ?_, ?_⟩
  · rw [p5 _ (by decide)]
    exact g4a
  · rw [p5 _ (by decide)]
    exact g4p
  · rw [p5 _ (by decide)]
    exact g4e
  · rw [p5 _ (by decide)]
    exact g4t
  · intro m h1 h2 h3 h4 h5
    rw [p5 m h1]
    exact p4 m h2 h3 h4 h5

theorem stage6_spec (df : DataFrame) (cd : List (String × Value)) (ccol : List Value)
    (hwf : df.WF) (hccol : df.getCol? "cultural" = some ccol) :
    (stage6 df cd ccol).WF ∧ (stage6 df cd ccol).nrows = df.nrows ∧
      (stage6 df cd ccol).getCol? "diff_cultural" =
        some (ccol.map (diff_cultural (normalize_cultural (dict_get cd "cultural")))) ∧
      (stage6 df cd ccol).getCol? "diff_sex" = some (num_list df cd "sex") ∧
      (stage6 df cd ccol).getCol? "diff_age" = some (num_list df cd "age") ∧
      (stage6 df cd ccol).getCol? "diff_politics" = some (num_list df cd "politics") ∧
      (stage6 df cd ccol).getCol? "diff_ethics" = some (num_list df cd "ethics") ∧
      (stage6 df cd ccol).getCol? "diff_tiered_income" = some (tiered_list df cd) ∧
      ∀ m, m ≠ "diff_cultural" → m ≠ "diff_sex" → m ≠ "diff_age" → m ≠ "diff_politics" →
        m ≠ "diff_ethics" → m ≠ "diff_tiered_income" →
        (stage6 df cd ccol).getCol? m = df.getCol? m := by
  obtain ⟨w5, n5, g5s, g5a, g5p, g5e, g5t, p5⟩ := stage5_spec df cd hwf
  have hclen : (ccol.map (diff_cultural (normalize_cultural (dict_get cd "cultural")))).length =
      (stage5 df cd).nrows := by
    rw [n5]
    simpa using getCol?_length df "cultural" ccol hwf hccol
  obtain ⟨w6, n6, g6, p6⟩ := setCol_spec (stage5 df cd) "diff_cultural" _ w5 hclen
  have hs : stage6 df cd ccol = (stage5 df cd).setCol "diff_cultural"
      (ccol.map (diff_cultural (normalize_cultural (dict_get cd "cultural")))) := rfl
  rw [hs]
  refine ⟨w6, by rw [n6, n5], g6, ?_, ?_, ?_, ?_, ?_, ?_⟩
  · rw [p6 _ (by decide)]
    exact g5s
  · rw [p6 _ (by decide)]
    exact g5a
  · rw [p6 _ (by decide)]
    exact g5p
  · rw [p6 _ (by decide)]
    exact g5e
  · rw [p6 _ (by decide)]
    exact g5t
  · intro m h1 h2 h3 h4 h5 h6
    rw [p6 m h1]
    exact p5 m h2 h3 h4 h5 h6

/-- Structure of a successful scorer run: on a well-formed frame with a
`cultural` column, the scorer succeeds, the output is well-formed with the
input's row count, every column outside the seven appended names is
untouched, and the seven new columns are exactly the vectorized tiered
diff, the four per-row numeric diffs, the cultural diff and the row-mean
based score, all expressed against the *input* frame. -/
theorem compute_spec (df : DataFrame) (c : ContentArg)
    (hwf : df.WF) (hc : "cultural" ∈ df.names) :
    ∃ out, compute_base_match_df df c = .ok out ∧
      out.WF ∧ out.nrows = df.nrows ∧
      out.getCol? "diff_tiered_income" = some (tiered_list df (as_dict c)) ∧
      out.getCol? "diff_ethics" = some (num_list df (as_dict c) "ethics") ∧
      out.getCol? "diff_politics" = some (num_list df (as_dict c) "politics") ∧
      out.getCol? "diff_age" = some (num_list df (as_dict c) "age") ∧
      out.getCol? "diff_sex" = some (num_list df (as_dict c) "sex") ∧
      out.getCol? "diff_cultural" =
        some (((df.getCol? "cultural").getD []).map
          (diff_cultural (normalize_cultural (dict_get (as_dict c) "cultural")))) ∧
      out.getCol? "base_score" = some ((List.range df.nrows).map
        (fun i => base_val (diffColNames.map (fun n => out.entry n i)))) ∧
      (∀ m, m ∉ newColNames → out.getCol? m = df.getCol? m) := by
  obtain ⟨ccol, hccol⟩ := (mem_names_iff df "cultural").mp hc
  obtain ⟨w5, n5, g5s, g5a, g5p, g5e, g5t, p5⟩ := stage5_spec df (as_dict c) hwf
  have hccol5 : (stage5 df (as_dict c)).getCol? "cultural" = some ccol := by
    rw [p5 "cultural" (by decide) (by decide) (by decide) (by decide) (by decide)]
    exact hccol
  obtain ⟨w6, n6, g6c, g6s, g6a, g6p, g6e, g6t, p6⟩ :=
    stage6_spec df (as_dict c) ccol hwf hccol
  have hblen : (base_score_list (stage6 df (as_dict c) ccol)).length =
      (stage6 df (as_dict c) ccol).nrows := by
    simp [base_score_list]
  obtain ⟨wo, no, go, po⟩ :=
    setCol_spec (stage6 df (as_dict c) ccol) "base_score" _ w6 hblen
  refine ⟨_, ?_, wo, by rw [no, n6], ?_, ?_, ?_, ?_, ?_, ?_, ?_, ?_⟩
  · simp only [compute_base_match_df]
    rw [hccol5]
  · rw [po _ (by decide)]
    exact g6t
  · rw [po _ (by decide)]
    exact g6e
  · rw [po _ (by decide)]
    exact g6p
  · rw [po _ (by decide)]
    exact g6a
  · rw [po _ (by decide)]
    exact g6s
  · rw [po _ (by decide), g6c, hccol]
    rfl
  · rw [go]
    have hnb : ∀ n ∈ diffColNames, n ≠ "base_score" := by decide
    have hentry : ∀ i, ∀ n ∈ diffColNames,
        ((stage6 df (as_dict c) ccol).setCol "base_score"
          (base_score_list (stage6 df (as_dict c) ccol))).entry n i =
        (stage6 df (as_dict c) ccol).entry n i := by
      intro i n hn
      unfold DataFrame.entry
      rw [po n (hnb n hn)]
    refine congrArg some ?_
    conv_lhs => unfold base_score_list
    rw [n6]
    refine List.map_congr_left ?_
    intro i _
    exact congrArg base_val (List.map_congr_left (fun n hn => (hentry i n hn).symm))
  · intro m hm
    simp only [newColNames, List.mem_cons, List.mem_singleton, not_or] at hm
    obtain ⟨h1, h2, h3, h4, h5, h6, h7, -⟩ := hm
    rw [po m h7, p6 m h6 h5 h4 h3 h2 h1]

theorem entry_of_getCol? (df : DataFrame) (n : String) (l : List Value) (i : Nat)
    (h : df.getCol? n = some l) : df.entry n i = l.getD i Value.nan := by
  unfold DataFrame.entry
  rw [h]
  rfl

theorem num_list_of_some (df : DataFrame) (cd : List (String × Value)) (attr : String)
    (col : List Value) (hcol : df.getCol? attr = some col) :
    num_list df cd attr = col.map (diff_numeric (to_numeric (dict_get cd attr))) := by
  unfold num_list
  rw [hcol]

theorem num_list_of_none (df : DataFrame) (cd : List (String × Value)) (attr : String)
    (hcol : df.getCol? attr = Option.none) :
    num_list df cd attr = List.replicate df.nrows Value.nan := by
  unfold num_list
  rw [hcol]

theorem numericRuleOK_of_num_list (df : DataFrame) (c : ContentArg) (out : DataFrame)
    (attr dname : String) (hwf : df.WF)
    (hg : out.getCol? dname = some (num_list df (as_dict c) attr)) :
    numericRuleOK df c out attr dname := by
  intro i hi
  have he : out.entry dname i = (num_list df (as_dict c) attr).getD i Value.nan :=
    entry_of_getCol? out dname _ i hg
  constructor
  · intro x y hx hy
    cases hcol : df.getCol? attr with
    | none =>
      rw [hcol] at hx
      simp [to_numeric] at hx
    | some col =>
      rw [hcol, Option.getD_some] at hx
      rw [he, num_list_of_some df _ attr col hcol, getD_map_lt _ col i
        (by rw [getCol?_length df attr col hwf hcol]; exact hi) _ Value.null]
      unfold diff_numeric
      rw [hx, hy]
  · intro h
    cases hcol : df.getCol? attr with
    | none =>
      rw [he, num_list_of_none df _ attr hcol]
      exact getD_replicate_lt _ _ i hi _
    | some col =>
      rw [he, num_list_of_some df _ attr col hcol, getD_map_lt _ col i
        (by rw [getCol?_length df attr col hwf hcol]; exact hi) _ Value.null]
      rw [hcol, Option.getD_some] at h
      unfold diff_numeric
      rcases h with h | h
      · rw [h]
      · rw [h]
        cases to_numeric (col.getD i Value.null) <;> rfl

theorem tiered_list_of_some (df : DataFrame) (cd : List (String × Value))
    (col : List Value) (t : ℚ) (hcol : df.getCol? "tiered_income" = some col)
    (ht : to_numeric (dict_get cd "tiered_income") = some t) :
    tiered_list df cd = col.map (diff_numeric (some t)) := by
  unfold tiered_list
  rw [hcol, ht]

theorem tiered_list_of_none_col (df : DataFrame) (cd : List (String × Value))
    (hcol : df.getCol? "tiered_income" = Option.none) :
    tiered_list df cd = List.replicate df.nrows Value.nan := by
  unfold tiered_list
  rw [hcol]

theorem tiered_list_of_none_tier (df : DataFrame) (cd : List (String × Value))
    (ht : to_numeric (dict_get cd "tiered_income") = Option.none) :
    tiered_list df cd = List.replicate df.nrows Value.nan := by
  unfold tiered_list
  rw [ht]
  cases df.getCol? "tiered_income" <;> rfl

theorem numericRuleOK_of_tiered_list (df : DataFrame) (c : ContentArg) (out : DataFrame)
    (hwf : df.WF)
    (hg : out.getCol? "diff_tiered_income" = some (tiered_list df (as_dict c))) :
    numericRuleOK df c out "tiered_income" "diff_tiered_income" := by
  intro i hi
  have he : out.entry "diff_tiered_income" i =
      (tiered_list df (as_dict c)).getD i Value.nan :=
    entry_of_getCol? out _ _ i hg
  constructor
  · intro x y hx hy
    cases hcol : df.getCol? "tiered_income" with
    | none =>
      rw [hcol] at hx
      simp [to_numeric] at hx
    | some col =>
      rw [hcol, Option.getD_some] at hx
      rw [he, tiered_list_of_some df _ col y hcol hy, getD_map_lt _ col i
        (by rw [getCol?_length df _ col hwf hcol]; exact hi) _ Value.null]
      unfold diff_numeric
      rw [hx]
  · intro h
    rcases h with h | h
    · cases hcol : df.getCol? "tiered_income" with
      | none =>
        rw [he, tiered_list_of_none_col df _ hcol]
        exact getD_replicate_lt _ _ i hi _
      | some col =>
        rw [hcol, Option.getD_some] at h
        cases ht : to_numeric (dict_get (as_dict c) "tiered_income") with
        | none =>
          rw [he, tiered_list_of_none_tier df _ ht]
          exact getD_replicate_lt _ _ i hi _
        | some t =>
          rw [he, tiered_list_of_some df _ col t hcol ht, getD_map_lt _ col i
            (by rw [getCol?_length df _ col hwf hcol]; exact hi) _ Value.null]
          unfold diff_numeric
          rw [h]
    · rw [he, tiered_list_of_none_tier df _ h]
      exact getD_replicate_lt _ _ i hi _

theorem getD_range_lt (n i : Nat) (h : i < n) : (List.range n).getD i 0 = i := by
  simp only [List.getD_eq_getElem?_getD]
  rw [List.getElem?_eq_getElem (by simpa using h)]
  simp

theorem base_entry_eq (df : DataFrame) (out : DataFrame) (i : Nat) (hi : i < df.nrows)
    (hbs : out.getCol? "base_score" = some ((List.range df.nrows).map
      (fun i => base_val (diffColNames.map (fun n => out.entry n i))))) :
    out.entry "base_score" i = base_val (diffColNames.map (fun n => out.entry n i)) := by
  rw [entry_of_getCol? out _ _ i hbs,
    getD_map_lt _ (List.range df.nrows) i (by simpa using hi) _ 0,
    getD_range_lt df.nrows i hi]

/-- **C1.** For every agent table and content record, each output row's
`base_score` is `1 −` the arithmetic mean of that row's available (non-NaN)
distances among exactly the six tracked diff columns; a row whose six
distances are all NaN has a NaN `base_score`; and when the content lacks
`politics`, `diff_politics` is NaN on every row and the mean runs over the
remaining available diffs only — no zero is ever substituted. -/
theorem C1_base_score_is_mean_of_available (df : DataFrame) (c : ContentArg)
    (hwf : df.WF) (hc : "cultural" ∈ df.names) :
    ∃ out, compute_base_match_df df c = .ok out ∧
      (∀ i, i < df.nrows →
        out.entry "base_score" i =
          (if ((diffColNames.map (fun n => out.entry n i)).filterMap numOf).isEmpty
           then Value.nan
           else Value.num (1 -
             ((diffColNames.map (fun n => out.entry n i)).filterMap numOf).sum /
             (((diffColNames.map (fun n => out.entry n i)).filterMap numOf).length : ℚ)))) ∧
      (∀ i, i < df.nrows →
        (∀ n ∈ diffColNames, numOf (out.entry n i) = Option.none) →
        out.entry "base_score" i = Value.nan) ∧
      (lookupVal (as_dict c) "politics" = Option.none →
        ∀ i, i < df.nrows → out.entry "diff_politics" i = Value.nan) := by
  obtain ⟨out, hok, hwo, hno, ht, he, hp, ha, hs, hcul, hbs, hpres⟩ :=
    compute_spec df c hwf hc
  refine ⟨out, hok, ?_, ?_, ?_⟩
  · intro i hi
    rw [base_entry_eq df out i hi hbs]
    simp only [base_val, mean_skipna]
    by_cases hq : ((diffColNames.map (fun n => out.entry n i)).filterMap numOf).isEmpty = true
    · rw [if_pos hq, if_pos hq]
    · rw [if_neg hq, if_neg hq]
  · intro i hi hall
    rw [base_entry_eq df out i hi hbs]
    have hnil : (diffColNames.map (fun n => out.entry n i)).filterMap numOf = [] := by
      rw [List.filterMap_map]
      refine List.filterMap_eq_nil_iff.mpr ?_
      intro n hn
      simpa using hall n hn
    unfold base_val mean_skipna
    simp [hnil]
  · intro hpol i hi
    have hget : dict_get (as_dict c) "politics" = Value.null := by
      unfold dict_get
      rw [hpol]
      rfl
    have hnum : to_numeric (dict_get (as_dict c) "politics") = Option.none := by
      rw [hget]
      rfl
    exact (numericRuleOK_of_num_list df c out "politics" "diff_politics" hwf hp i hi).2
      (Or.inr hnum)

/-- Witness for C1: a two-column, one-row frame scored against a content
mapping that lacks `politics`. -/
theorem C1_base_score_is_mean_of_available_witness :
    ∃ out, compute_base_match_df
        ⟨[("cultural", [Value.str "western"]), ("ethics", [Value.num 1])]⟩
        (ContentArg.mapping [("ethics", Value.num 0)]) = .ok out ∧
      (∀ i, i < (⟨[("cultural", [Value.str "western"]),
          ("ethics", [Value.num 1])]⟩ : DataFrame).nrows →
        out.entry "base_score" i =
          (if ((diffColNames.map (fun n => out.entry n i)).filterMap numOf).isEmpty
           then Value.nan
           else Value.num (1 -
             ((diffColNames.map (fun n => out.entry n i)).filterMap numOf).sum /
             (((diffColNames.map (fun n => out.entry n i)).filterMap numOf).length : ℚ)))) ∧
      (∀ i, i < (⟨[("cultural", [Value.str "western"]),
          ("ethics", [Value.num 1])]⟩ : DataFrame).nrows →
        (∀ n ∈ diffColNames, numOf (out.entry n i) = Option.none) →
        out.entry "base_score" i = Value.nan) ∧
      (lookupVal (as_dict (ContentArg.mapping [("ethics", Value.num 0)])) "politics" =
          Option.none →
        ∀ i, i < (⟨[("cultural", [Value.str "western"]),
            ("ethics", [Value.num 1])]⟩ : DataFrame).nrows →
        out.entry "diff_politics" i = Value.nan) :=
  C1_base_score_is_mean_of_available
    ⟨[("cultural", [Value.str "western"]), ("ethics", [Value.num 1])]⟩
    (ContentArg.mapping [("ethics", Value.num 0)]) (by decide) (by decide)

/-- **C2.** For each numeric tracked attribute and every row, the diff cell
is the absolute difference of the two coerced numeric values; whenever
either side is missing, non-numeric or fails coercion the cell is NaN
(never zero); and the scorer returns a table rather than raising, so one
malformed value never aborts the remaining rows. -/
theorem C2_numeric_diff_rule (df : DataFrame) (c : ContentArg)
    (hwf : df.WF) (hc : "cultural" ∈ df.names) :
    ∃ out, compute_base_match_df df c = .ok out ∧
      numericRuleOK df c out "tiered_income" "diff_tiered_income" ∧
      numericRuleOK df c out "ethics" "diff_ethics" ∧
      numericRuleOK df c out "politics" "diff_politics" ∧
      numericRuleOK df c out "age" "diff_age" ∧
      numericRuleOK df c out "sex" "diff_sex" := by
  obtain ⟨out, hok, hwo, hno, ht, he, hp, ha, hs, hcul, hbs, hpres⟩ :=
    compute_spec df c hwf hc
  exact ⟨out, hok,
    numericRuleOK_of_tiered_list df c out hwf ht,
    numericRuleOK_of_num_list df c out "ethics" "diff_ethics" hwf he,
    numericRuleOK_of_num_list df c out "politics" "diff_politics" hwf hp,
    numericRuleOK_of_num_list df c out "age" "diff_age" hwf ha,
    numericRuleOK_of_num_list df c out "sex" "diff_sex" hwf hs⟩

/-- Witness for C2: a frame holding a numeric `ethics` cell, an unparsable
`age` cell and no `politics` column at all. -/
theorem C2_numeric_diff_rule_witness :
    ∃ out, compute_base_match_df
        ⟨[("cultural", [Value.str "western"]), ("ethics", [Value.num 1]),
          ("age", [Value.str "oops"])]⟩
        (ContentArg.mapping [("ethics", Value.num 3), ("age", Value.num 30)]) = .ok out ∧
      numericRuleOK ⟨[("cultural", [Value.str "western"]), ("ethics", [Value.num 1]),
          ("age", [Value.str "oops"])]⟩
        (ContentArg.mapping [("ethics", Value.num 3), ("age", Value.num 30)]) out
        "tiered_income" "diff_tiered_income" ∧
      numericRuleOK ⟨[("cultural", [Value.str "western"]), ("ethics", [Value.num 1]),
          ("age", [Value.str "oops"])]⟩
        (ContentArg.mapping [("ethics", Value.num 3), ("age", Value.num 30)]) out
        "ethics" "diff_ethics" ∧
      numericRuleOK ⟨[("cultural", [Value.str "western"]), ("ethics", [Value.num 1]),
          ("age", [Value.str "oops"])]⟩
        (ContentArg.mapping [("ethics", Value.num 3), ("age", Value.num 30)]) out
        "politics" "diff_politics" ∧
      numericRuleOK ⟨[("cultural", [Value.str "western"]), ("ethics", [Value.num 1]),
          ("age", [Value.str "oops"])]⟩
        (ContentArg.mapping [("ethics", Value.num 3), ("age", Value.num 30)]) out
        "age" "diff_age" ∧
      numericRuleOK ⟨[("cultural", [Value.str "western"]), ("ethics", [Value.num 1]),
          ("age", [Value.str "oops"])]⟩
        (ContentArg.mapping [("ethics", Value.num 3), ("age", Value.num 30)]) out
        "sex" "diff_sex" :=
  C2_numeric_diff_rule
    ⟨[("cultural", [Value.str "western"]), ("ethics", [Value.num 1]),
      ("age", [Value.str "oops"])]⟩
    (ContentArg.mapping [("ethics", Value.num 3), ("age", Value.num 30)])
    (by decide) (by decide)

/-- **C3.** `diff_cultural` follows the normalize-then-compare rule: both
sides are normalized (an enum-like value contributes its `.value` label,
otherwise the raw value, then stringified, trimmed and lower-cased); the
cell is 0.0 on equal normalized labels, 1.0 on different ones, and NaN
when either side is missing or unnormalizable. -/
theorem C3_cultural_diff_rule (df : DataFrame) (c : ContentArg) (ccol : List Value)
    (hwf : df.WF) (hccol : df.getCol? "cultural" = some ccol) :
    ∃ out, compute_base_match_df df c = .ok out ∧
      (∀ i, i < df.nrows →
        out.entry "diff_cultural" i =
          match normalize_cultural (ccol.getD i Value.null),
                normalize_cultural (dict_get (as_dict c) "cultural") with
          | some nx, some nc => Value.num (if nx = nc then 0 else 1)
          | _, _ => Value.nan) ∧
      (∀ s, normalize_cultural (Value.tag s) = some (pyLower (pyStrip s))) ∧
      (∀ s, normalize_cultural (Value.str s) = some (pyLower (pyStrip s))) ∧
      normalize_cultural Value.null = Option.none ∧
      normalize_cultural Value.nan = Option.none := by
  have hc : "cultural" ∈ df.names := (mem_names_iff df "cultural").mpr ⟨ccol, hccol⟩
  obtain ⟨out, hok, hwo, hno, ht, he, hp, ha, hs, hcul, hbs, hpres⟩ :=
    compute_spec df c hwf hc
  rw [hccol] at hcul
  simp only [Option.getD_some] at hcul
  refine ⟨out, hok, ?_, fun s => rfl, fun s => rfl, rfl, rfl⟩
  intro i hi
  rw [entry_of_getCol? out _ _ i hcul, getD_map_lt _ ccol i
    (by rw [getCol?_length df _ ccol hwf hccol]; exact hi) _ Value.null]
  rfl

/-- Witness for C3: one matching row, one clashing row, one missing row. -/
theorem C3_cultural_diff_rule_witness :
    ∃ out, compute_base_match_df
        ⟨[("cultural", [Value.tag "western", Value.str " Eastern ", Value.null])]⟩
        (ContentArg.mapping [("cultural", Value.str "WESTERN")]) = .ok out ∧
      (∀ i, i < (⟨[("cultural",
          [Value.tag "western", Value.str " Eastern ", Value.null])]⟩ : DataFrame).nrows →
        out.entry "diff_cultural" i =
          match normalize_cultural ([Value.tag "western", Value.str " Eastern ",
                  Value.null].getD i Value.null),
                normalize_cultural (dict_get
                  (as_dict (ContentArg.mapping [("cultural", Value.str "WESTERN")]))
                  "cultural") with
          | some nx, some nc => Value.num (if nx = nc then 0 else 1)
          | _, _ => Value.nan) ∧
      (∀ s, normalize_cultural (Value.tag s) = some (pyLower (pyStrip s))) ∧
      (∀ s, normalize_cultural (Value.str s) = some (pyLower (pyStrip s))) ∧
      normalize_cultural Value.null = Option.none ∧
      normalize_cultural Value.nan = Option.none :=
  C3_cultural_diff_rule
    ⟨[("cultural", [Value.tag "western", Value.str " Eastern ", Value.null])]⟩
    (ContentArg.mapping [("cultural", Value.str "WESTERN")])
    [Value.tag "western", Value.str " Eastern ", Value.null]
    (by decide) (by decide)

/-- **C4.** The vectorized `diff_tiered_income` column is row-for-row
identical to the per-row numeric-distance rule, and when the frame lacks a
`tiered_income` column or the content's tier does not coerce, the entire
column is NaN. -/
theorem C4_tiered_vectorized_refines_rowwise (df : DataFrame) (c : ContentArg)
    (hwf : df.WF) (hc : "cultural" ∈ df.names) :
    ∃ out, compute_base_match_df df c = .ok out ∧
      (∀ i, i < df.nrows →
        out.entry "diff_tiered_income" i = rowwise_tiered_spec df (as_dict c) i) ∧
      ((df.getCol? "tiered_income" = Option.none ∨
        to_numeric (dict_get (as_dict c) "tiered_income") = Option.none) →
        ∀ i, i < df.nrows → out.entry "diff_tiered_income" i = Value.nan) := by
  obtain ⟨out, hok, hwo, hno, ht, he, hp, ha, hs, hcul, hbs, hpres⟩ :=
    compute_spec df c hwf hc
  have hrule := numericRuleOK_of_tiered_list df c out hwf ht
  refine ⟨out, hok, ?_, ?_⟩
  · intro i hi
    unfold rowwise_tiered_spec
    cases hx : to_numeric (((df.getCol? "tiered_income").getD []).getD i Value.null) with
    | none =>
      rw [(hrule i hi).2 (Or.inl hx)]
    | some x =>
      cases hy : to_numeric (dict_get (as_dict c) "tiered_income") with
      | none =>
        rw [(hrule i hi).2 (Or.inr hy)]
      | some y =>
        rw [(hrule i hi).1 x y hx hy]
  · intro h i hi
    rcases h with h | h
    · refine (hrule i hi).2 (Or.inl ?_)
      rw [h]
      rfl
    · exact (hrule i hi).2 (Or.inr h)

/-- Witness for C4: the frame lacks `tiered_income`, so the whole column is
NaN on both readings. -/
theorem C4_tiered_vectorized_refines_rowwise_witness :
    ∃ out, compute_base_match_df
        ⟨[("cultural", [Value.str "western"]), ("age", [Value.num 30])]⟩
        (ContentArg.mapping [("tiered_income", Value.num 3)]) = .ok out ∧
      (∀ i, i < (⟨[("cultural", [Value.str "western"]),
          ("age", [Value.num 30])]⟩ : DataFrame).nrows →
        out.entry "diff_tiered_income" i =
          rowwise_tiered_spec ⟨[("cultural", [Value.str "western"]),
            ("age", [Value.num 30])]⟩
            (as_dict (ContentArg.mapping [("tiered_income", Value.num 3)])) i) ∧
      (((⟨[("cultural", [Value.str "western"]),
          ("age", [Value.num 30])]⟩ : DataFrame).getCol? "tiered_income" = Option.none ∨
        to_numeric (dict_get
          (as_dict (ContentArg.mapping [("tiered_income", Value.num 3)]))
          "tiered_income") = Option.none) →
        ∀ i, i < (⟨[("cultural", [Value.str "western"]),
            ("age", [Value.num 30])]⟩ : DataFrame).nrows →
        out.entry "diff_tiered_income" i = Value.nan) :=
  C4_tiered_vectorized_refines_rowwise
    ⟨[("cultural", [Value.str "western"]), ("age", [Value.num 30])]⟩
    (ContentArg.mapping [("tiered_income", Value.num 3)])
    (by decide) (by decide)

/-- **C5.** The claim says a missing attribute column is never an error —
but `compute_base_match_df` reads `df["cultural"]` without a column guard,
so a frame with no `cultural` column raises a `KeyError` (first conjunct),
unlike every other tracked attribute, whose absence degrades to a NaN
column on a successful run (remaining conjuncts). -/
theorem C5_missing_cultural_column_raises :
    compute_base_match_df ⟨[("ethics", [Value.num 1]), ("age", [Value.num 30])]⟩
      (ContentArg.mapping []) = .error "KeyError: cultural" ∧
    (compute_base_match_df ⟨[("cultural", [Value.str "western"])]⟩
      (ContentArg.mapping [])).isOk = true ∧
    (compute_base_match_df ⟨[("cultural", [Value.str "western"])]⟩
      (ContentArg.mapping [])).toOption.bind (fun o => o.getCol? "diff_ethics") =
      some [Value.nan] ∧
    (compute_base_match_df ⟨[("cultural", [Value.str "western"])]⟩
      (ContentArg.mapping [])).toOption.bind (fun o => o.getCol? "diff_tiered_income") =
      some [Value.nan] :=
  ⟨rfl, by decide, by decide, by decide⟩

theorem diff_cultural_norm_none (nc : Option String) (x : Value)
    (h : nc = Option.none) : diff_cultural nc x = Value.nan := by
  unfold diff_cultural
  rw [h]
  cases normalize_cultural x <;> rfl

theorem base_entry_nan_of_all_nan (df : DataFrame) (out : DataFrame) (i : Nat)
    (hi : i < df.nrows)
    (hbs : out.getCol? "base_score" = some ((List.range df.nrows).map
      (fun i => base_val (diffColNames.map (fun n => out.entry n i)))))
    (hall : ∀ n ∈ diffColNames, numOf (out.entry n i) = Option.none) :
    out.entry "base_score" i = Value.nan := by
  rw [base_entry_eq df out i hi hbs]
  have hnil : (diffColNames.map (fun n => out.entry n i)).filterMap numOf = [] := by
    rw [List.filterMap_map]
    refine List.filterMap_eq_nil_iff.mpr ?_
    intro n hn
    simpa using hall n hn
  simp only [base_val, mean_skipna]
  simp [hnil]

/-- **C6.** `_as_dict` accepts a plain mapping or any object exposing
`to_dict()` and extracts a plain mapping; a `None` content argument acts
exactly like an empty mapping; and against an empty content mapping every
one of the six diff columns and the `base_score` column is NaN on every
row. -/
theorem C6_content_normalization_and_empty_content (df : DataFrame)
    (hwf : df.WF) (hc : "cultural" ∈ df.names) :
    as_dict ContentArg.null = [] ∧
    (∀ m, as_dict (ContentArg.mapping m) = m) ∧
    (∀ m, as_dict (ContentArg.obj m) = m) ∧
    as_dict ContentArg.plain = [] ∧
    compute_base_match_df df ContentArg.null =
      compute_base_match_df df (ContentArg.mapping []) ∧
    ∃ out, compute_base_match_df df (ContentArg.mapping []) = .ok out ∧
      ∀ i, i < df.nrows →
        (∀ n ∈ diffColNames, out.entry n i = Value.nan) ∧
        out.entry "base_score" i = Value.nan := by
  obtain ⟨out, hok, hwo, hno, ht, he, hp, ha, hs, hcul, hbs, hpres⟩ :=
    compute_spec df (ContentArg.mapping []) hwf hc
  obtain ⟨ccol, hccol⟩ := (mem_names_iff df "cultural").mp hc
  refine ⟨rfl, fun m => rfl, fun m => rfl, rfl, rfl, out, hok, ?_⟩
  intro i hi
  have hdiffs : ∀ n ∈ diffColNames, out.entry n i = Value.nan := by
    intro n hn
    have hn6 : n = "diff_tiered_income" ∨ n = "diff_ethics" ∨ n = "diff_politics" ∨
        n = "diff_cultural" ∨ n = "diff_age" ∨ n = "diff_sex" := by
      simpa [diffColNames] using hn
    rcases hn6 with rfl | rfl | rfl | rfl | rfl | rfl
    · exact (numericRuleOK_of_tiered_list df _ out hwf ht i hi).2 (Or.inr rfl)
    · exact (numericRuleOK_of_num_list df _ out "ethics" _ hwf he i hi).2 (Or.inr rfl)
    · exact (numericRuleOK_of_num_list df _ out "politics" _ hwf hp i hi).2 (Or.inr rfl)
    · rw [hccol] at hcul
      simp only [Option.getD_some] at hcul
      rw [entry_of_getCol? out _ _ i hcul, getD_map_lt _ ccol i
        (by rw [getCol?_length df _ ccol hwf hccol]; exact hi) _ Value.null]
      exact diff_cultural_norm_none _ _ rfl
    · exact (numericRuleOK_of_num_list df _ out "age" _ hwf ha i hi).2 (Or.inr rfl)
    · exact (numericRuleOK_of_num_list df _ out "sex" _ hwf hs i hi).2 (Or.inr rfl)
  refine ⟨hdiffs, ?_⟩
  refine base_entry_nan_of_all_nan df out i hi hbs ?_
  intro n hn
  rw [hdiffs n hn]
  rfl

/-- Witness for C6 on a concrete one-row frame. -/
theorem C6_content_normalization_and_empty_content_witness :
    as_dict ContentArg.null = [] ∧
    (∀ m, as_dict (ContentArg.mapping m) = m) ∧
    (∀ m, as_dict (ContentArg.obj m) = m) ∧
    as_dict ContentArg.plain = [] ∧
    compute_base_match_df ⟨[("cultural", [Value.str "western"]),
      ("age", [Value.num 30])]⟩ ContentArg.null =
      compute_base_match_df ⟨[("cultural", [Value.str "western"]),
        ("age", [Value.num 30])]⟩ (ContentArg.mapping []) ∧
    ∃ out, compute_base_match_df ⟨[("cultural", [Value.str "western"]),
        ("age", [Value.num 30])]⟩ (ContentArg.mapping []) = .ok out ∧
      ∀ i, i < (⟨[("cultural", [Value.str "western"]),
          ("age", [Value.num 30])]⟩ : DataFrame).nrows →
        (∀ n ∈ diffColNames, out.entry n i = Value.nan) ∧
        out.entry "base_score" i = Value.nan :=
  C6_content_normalization_and_empty_content
    ⟨[("cultural", [Value.str "western"]), ("age", [Value.num 30])]⟩
    (by decide) (by decide)

theorem numOf_diff_numeric_nonneg (cn : Option ℚ) (x : Value) (q : ℚ)
    (h : numOf (diff_numeric cn x) = some q) : 0 ≤ q := by
  unfold diff_numeric at h
  cases hx : to_numeric x with
  | none =>
    rw [hx] at h
    simp [numOf] at h
  | some a =>
    cases cn with
    | none =>
      rw [hx] at h
      simp [numOf] at h
    | some b =>
      rw [hx] at h
      simp only [numOf, Option.some.injEq] at h
      rw [← h]
      exact abs_nonneg _

theorem numOf_diff_cultural_cases (nc : Option String) (x : Value) (q : ℚ)
    (h : numOf (diff_cultural nc x) = some q) : q = 0 ∨ q = 1 := by
  unfold diff_cultural at h
  cases hx : normalize_cultural x with
  | none =>
    rw [hx] at h
    simp [numOf] at h
  | some a =>
    cases nc with
    | none =>
      rw [hx] at h
      simp [numOf] at h
    | some b =>
      rw [hx] at h
      simp only [numOf, Option.some.injEq] at h
      by_cases hab : a = b
      · rw [if_pos hab] at h
        exact Or.inl h.symm
      · rw [if_neg hab] at h
        exact Or.inr h.symm

theorem entry_shape_numeric (df : DataFrame) (c : ContentArg) (out : DataFrame)
    (attr dname : String) (hwf : df.WF)
    (hg : out.getCol? dname = some (num_list df (as_dict c) attr))
    (i : Nat) (hi : i < df.nrows) :
    out.entry dname i = Value.nan ∨
      ∃ cn x, out.entry dname i = diff_numeric cn x := by
  cases hcol : df.getCol? attr with
  | none =>
    left
    rw [entry_of_getCol? out _ _ i hg, num_list_of_none df _ attr hcol]
    exact getD_replicate_lt _ _ i hi _
  | some col =>
    right
    exact ⟨_, _, by
      rw [entry_of_getCol? out _ _ i hg, num_list_of_some df _ attr col hcol,
        getD_map_lt _ col i (by rw [getCol?_length df attr col hwf hcol]; exact hi)
        _ Value.null]⟩

theorem entry_shape_tiered (df : DataFrame) (c : ContentArg) (out : DataFrame)
    (hwf : df.WF)
    (hg : out.getCol? "diff_tiered_income" = some (tiered_list df (as_dict c)))
    (i : Nat) (hi : i < df.nrows) :
    out.entry "diff_tiered_income" i = Value.nan ∨
      ∃ cn x, out.entry "diff_tiered_income" i = diff_numeric cn x := by
  cases hcol : df.getCol? "tiered_income" with
  | none =>
    left
    rw [entry_of_getCol? out _ _ i hg, tiered_list_of_none_col df _ hcol]
    exact getD_replicate_lt _ _ i hi _
  | some col =>
    cases ht : to_numeric (dict_get (as_dict c) "tiered_income") with
    | none =>
      left
      rw [entry_of_getCol? out _ _ i hg, tiered_list_of_none_tier df _ ht]
      exact getD_replicate_lt _ _ i hi _
    | some t =>
      right
      exact ⟨_, _, by
        rw [entry_of_getCol? out _ _ i hg, tiered_list_of_some df _ col t hcol ht,
          getD_map_lt _ col i
          (by rw [getCol?_length df _ col hwf hcol]; exact hi) _ Value.null]⟩

theorem entry_shape_cultural (df : DataFrame) (c : ContentArg) (out : DataFrame)
    (ccol : List Value) (hwf : df.WF) (hccol : df.getCol? "cultural" = some ccol)
    (hg : out.getCol? "diff_cultural" =
      some (((df.getCol? "cultural").getD []).map
        (diff_cultural (normalize_cultural (dict_get (as_dict c) "cultural")))))
    (i : Nat) (hi : i < df.nrows) :
    ∃ x, out.entry "diff_cultural" i =
      diff_cultural (normalize_cultural (dict_get (as_dict c) "cultural")) x := by
  rw [hccol] at hg
  simp only [Option.getD_some] at hg
  exact ⟨_, by
    rw [entry_of_getCol? out _ _ i hg, getD_map_lt _ ccol i
      (by rw [getCol?_length df _ ccol hwf hccol]; exact hi) _ Value.null]⟩

/-- **C10.** Every defined per-attribute distance in the output is
nonnegative, `diff_cultural` is exactly 0.0 or 1.0 when defined, and
therefore a defined `base_score` never exceeds 1. -/
theorem C10_diffs_nonneg_base_score_le_one (df : DataFrame) (c : ContentArg)
    (hwf : df.WF) (hc : "cultural" ∈ df.names) :
    ∃ out, compute_base_match_df df c = .ok out ∧
      ∀ i, i < df.nrows →
        (∀ n ∈ diffColNames, ∀ q, numOf (out.entry n i) = some q → 0 ≤ q) ∧
        (∀ q, numOf (out.entry "diff_cultural" i) = some q → q = 0 ∨ q = 1) ∧
        (∀ q, numOf (out.entry "base_score" i) = some q → q ≤ 1) := by
  obtain ⟨out, hok, hwo, hno, ht, he, hp, ha, hs, hcul, hbs, hpres⟩ :=
    compute_spec df c hwf hc
  obtain ⟨ccol, hccol⟩ := (mem_names_iff df "cultural").mp hc
  refine ⟨out, hok, ?_⟩
  intro i hi
  have hcult : ∀ q, numOf (out.entry "diff_cultural" i) = some q → q = 0 ∨ q = 1 := by
    intro q hq
    obtain ⟨x, hx⟩ := entry_shape_cultural df c out ccol hwf hccol hcul i hi
    rw [hx] at hq
    exact numOf_diff_cultural_cases _ x q hq
  have hnonneg : ∀ n ∈ diffColNames, ∀ q, numOf (out.entry n i) = some q → 0 ≤ q := by
    intro n hn q hq
    have hn6 : n = "diff_tiered_income" ∨ n = "diff_ethics" ∨ n = "diff_politics" ∨
        n = "diff_cultural" ∨ n = "diff_age" ∨ n = "diff_sex" := by
      simpa [diffColNames] using hn
    have shape : out.entry n i = Value.nan ∨ ∃ cn x, out.entry n i = diff_numeric cn x ∨
        (n = "diff_cultural") := by
      rcases hn6 with rfl | rfl | rfl | rfl | rfl | rfl
      · rcases entry_shape_tiered df c out hwf ht i hi with h | ⟨cn, x, h⟩
        · exact Or.inl h
        · exact Or.inr ⟨cn, x, Or.inl h⟩
      · rcases entry_shape_numeric df c out "ethics" _ hwf he i hi with h | ⟨cn, x, h⟩
        · exact Or.inl h
        · exact Or.inr ⟨cn, x, Or.inl h⟩
      · rcases entry_shape_numeric df c out "politics" _ hwf hp i hi with h | ⟨cn, x, h⟩
        · exact Or.inl h
        · exact Or.inr ⟨cn, x, Or.inl h⟩
      · exact Or.inr ⟨Option.none, Value.null, Or.inr rfl⟩
      · rcases entry_shape_numeric df c out "age" _ hwf ha i hi with h | ⟨cn, x, h⟩
        · exact Or.inl h
        · exact Or.inr ⟨cn, x, Or.inl h⟩
      · rcases entry_shape_numeric df c out "sex" _ hwf hs i hi with h | ⟨cn, x, h⟩
        · exact Or.inl h
        · exact Or.inr ⟨cn, x, Or.inl h⟩
    rcases shape with h | ⟨cn, x, h | h⟩
    · rw [h] at hq
      simp [numOf] at hq
    · rw [h] at hq
      exact numOf_diff_numeric_nonneg cn x q hq
    · subst h
      rcases hcult q hq with rfl | rfl
      · exact le_refl 0
      · exact zero_le_one
  refine ⟨hnonneg, hcult, ?_⟩
  intro q hq
  rw [base_entry_eq df out i hi hbs] at hq
  simp only [base_val, mean_skipna] at hq
  by_cases hqe : ((diffColNames.map (fun n => out.entry n i)).filterMap numOf).isEmpty = true
  · rw [if_pos hqe] at hq
    simp [numOf] at hq
  · rw [if_neg hqe] at hq
    simp only [numOf, Option.some.injEq] at hq
    have hsum : 0 ≤ ((diffColNames.map (fun n => out.entry n i)).filterMap numOf).sum := by
      refine List.sum_nonneg ?_
      intro a ha
      obtain ⟨v, hv, hva⟩ := List.mem_filterMap.mp ha
      obtain ⟨n, hn, hnv⟩ := List.mem_map.mp hv
      exact hnonneg n hn a (by rw [hnv]; exact hva)
    have hdiv : 0 ≤ ((diffColNames.map (fun n => out.entry n i)).filterMap numOf).sum /
        (((diffColNames.map (fun n => out.entry n i)).filterMap numOf).length : ℚ) :=
      div_nonneg hsum (by positivity)
    rw [← hq]
    linarith

/-- Witness for C10 on a concrete one-row frame. -/
theorem C10_diffs_nonneg_base_score_le_one_witness :
    ∃ out, compute_base_match_df
        ⟨[("cultural", [Value.str "western"]), ("age", [Value.num 30])]⟩
        (ContentArg.mapping [("age", Value.num 70),
          ("cultural", Value.str "eastern")]) = .ok out ∧
      ∀ i, i < (⟨[("cultural", [Value.str "western"]),
          ("age", [Value.num 30])]⟩ : DataFrame).nrows →
        (∀ n ∈ diffColNames, ∀ q, numOf (out.entry n i) = some q → 0 ≤ q) ∧
        (∀ q, numOf (out.entry "diff_cultural" i) = some q → q = 0 ∨ q = 1) ∧
        (∀ q, numOf (out.entry "base_score" i) = some q → q ≤ 1) :=
  C10_diffs_nonneg_base_score_le_one
    ⟨[("cultural", [Value.str "western"]), ("age", [Value.num 30])]⟩
    (ContentArg.mapping [("age", Value.num 70), ("cultural", Value.str "eastern")])
    (by decide) (by decide)

/-- **C9 (counterexample).** The claim "every original column appears
unchanged" fails when the input already carries a column named like one of
the scorer's outputs: a pre-existing `diff_ethics` column holding `5.0` is
overwritten with the computed NaN diff. -/
theorem C9_counterexample_preexisting_diff_column :
    (⟨[("cultural", [Value.str "western"]),
      ("diff_ethics", [Value.num 5])]⟩ : DataFrame).WF ∧
    (⟨[("cultural", [Value.str "western"]),
      ("diff_ethics", [Value.num 5])]⟩ : DataFrame).getCol? "diff_ethics" =
      some [Value.num 5] ∧
    (compute_base_match_df ⟨[("cultural", [Value.str "western"]),
      ("diff_ethics", [Value.num 5])]⟩ (ContentArg.mapping [])).toOption.bind
      (fun o => o.getCol? "diff_ethics") = some [Value.nan] :=
  ⟨by decide, by decide, by decide⟩

/-- **C9 (amended).** On a well-formed frame that has a `cultural` column
and shares none of the seven output column names, the scorer succeeds and
the output is the input's columns, in order and unchanged, followed by
exactly `diff_tiered_income, diff_ethics, diff_politics, diff_age,
diff_sex, diff_cultural, base_score`, each with the input's row count (a
pre-existing column with an output name is instead overwritten in place;
the pure embedding cannot mutate its inputs). -/
theorem C9_output_is_input_plus_seven_columns (df : DataFrame) (c : ContentArg)
    (hwf : df.WF) (hc : "cultural" ∈ df.names)
    (hdisj : ∀ n ∈ newColNames, n ∉ df.names) :
    ∃ out, compute_base_match_df df c = .ok out ∧ out.nrows = df.nrows ∧
      ∃ l1 l2 l3 l4 l5 l6 l7,
        out.cols = df.cols ++ [("diff_tiered_income", l1), ("diff_ethics", l2),
          ("diff_politics", l3), ("diff_age", l4), ("diff_sex", l5),
          ("diff_cultural", l6), ("base_score", l7)] ∧
        l1.length = df.nrows ∧ l2.length = df.nrows ∧ l3.length = df.nrows ∧
        l4.length = df.nrows ∧ l5.length = df.nrows ∧ l6.length = df.nrows ∧
        l7.length = df.nrows := by
  obtain ⟨ccol, hccol⟩ := (mem_names_iff df "cultural").mp hc
  obtain ⟨w1, n1, g1, p1⟩ := stage1_spec df (as_dict c) hwf
  obtain ⟨w2, n2, g2e, g2t, p2⟩ := stage2_spec df (as_dict c) hwf
  obtain ⟨w3, n3, g3p, g3e, g3t, p3⟩ := stage3_spec df (as_dict c) hwf
  obtain ⟨w4, n4, g4a, g4p, g4e, g4t, p4⟩ := stage4_spec df (as_dict c) hwf
  obtain ⟨w5, n5, g5s, g5a, g5p, g5e, g5t, p5⟩ := stage5_spec df (as_dict c) hwf
  obtain ⟨w6, n6, g6c, g6s, g6a, g6p, g6e, g6t, p6⟩ :=
    stage6_spec df (as_dict c) ccol hwf hccol
  have hccol5 : (stage5 df (as_dict c)).getCol? "cultural" = some ccol := by
    rw [p5 "cultural" (by decide) (by decide) (by decide) (by decide) (by decide)]
    exact hccol
  -- column-list structure, one appended column per stage
  have hc1 : (stage1 df (as_dict c)).cols =
      df.cols ++ [("diff_tiered_income", tiered_list df (as_dict c))] :=
    setCol_not_mem df _ _ (hdisj _ (by decide))
  have hname1 : (stage1 df (as_dict c)).names = df.names ++ ["diff_tiered_income"] := by
    show (stage1 df (as_dict c)).cols.map Prod.fst = _
    rw [hc1, List.map_append]
    rfl
  have hnm2 : "diff_ethics" ∉ (stage1 df (as_dict c)).names := by
    rw [hname1]
    simp only [List.mem_append, List.mem_singleton, not_or]
    exact ⟨hdisj _ (by decide), by decide⟩
  have hc2 : (stage2 df (as_dict c)).cols = (stage1 df (as_dict c)).cols ++
      [("diff_ethics", num_list (stage1 df (as_dict c)) (as_dict c) "ethics")] :=
    setCol_not_mem _ _ _ hnm2
  have hname2 : (stage2 df (as_dict c)).names =
      df.names ++ ["diff_tiered_income", "diff_ethics"] := by
    show (stage2 df (as_dict c)).cols.map Prod.fst = _
    rw [hc2, List.map_append, show (stage1 df (as_dict c)).cols.map Prod.fst =
      df.names ++ ["diff_tiered_income"] from hname1, List.append_assoc]
    rfl
  have hnm3 : "diff_politics" ∉ (stage2 df (as_dict c)).names := by
    rw [hname2]
    simp only [List.mem_append, List.mem_cons, List.mem_singleton, not_or]
    exact ⟨hdisj _ (by decide), by decide, by decide⟩
  have hc3 : (stage3 df (as_dict c)).cols = (stage2 df (as_dict c)).cols ++
      [("diff_politics", num_list (stage2 df (as_dict c)) (as_dict c) "politics")] :=
    setCol_not_mem _ _ _ hnm3
  have hname3 : (stage3 df (as_dict c)).names =
      df.names ++ ["diff_tiered_income", "diff_ethics", "diff_politics"] := by
    show (stage3 df (as_dict c)).cols.map Prod.fst = _
    rw [hc3, List.map_append, show (stage2 df (as_dict c)).cols.map Prod.fst =
      df.names ++ ["diff_tiered_income", "diff_ethics"] from hname2, List.append_assoc]
    rfl
  have hnm4 : "diff_age" ∉ (stage3 df (as_dict c)).names := by
    rw [hname3]
    simp only [List.mem_append, List.mem_cons, List.mem_singleton, not_or]
    exact ⟨hdisj _ (by decide), by decide, by decide, by decide⟩
  have hc4 : (stage4 df (as_dict c)).cols = (stage3 df (as_dict c)).cols ++
      [("diff_age", num_list (stage3 df (as_dict c)) (as_dict c) "age")] :=
    setCol_not_mem _ _ _ hnm4
  have hname4 : (stage4 df (as_dict c)).names =
      df.names ++ ["diff_tiered_income", "diff_ethics", "diff_politics", "diff_age"] := by
    show (stage4 df (as_dict c)).cols.map Prod.fst = _
    rw [hc4, List.map_append, show (stage3 df (as_dict c)).cols.map Prod.fst =
      df.names ++ ["diff_tiered_income", "diff_ethics", "diff_politics"] from hname3,
      List.append_assoc]
    rfl
  have hnm5 : "diff_sex" ∉ (stage4 df (as_dict c)).names := by
    rw [hname4]
    simp only [List.mem_append, List.mem_cons, List.mem_singleton, not_or]
    exact ⟨hdisj _ (by decide), by decide, by decide, by decide, by decide⟩
  have hc5 : (stage5 df (as_dict c)).cols = (stage4 df (as_dict c)).cols ++
      [("diff_sex", num_list (stage4 df (as_dict c)) (as_dict c) "sex")] :=
    setCol_not_mem _ _ _ hnm5
  have hname5 : (stage5 df (as_dict c)).names = df.names ++
      ["diff_tiered_income", "diff_ethics", "diff_politics", "diff_age", "diff_sex"] := by
    show (stage5 df (as_dict c)).cols.map Prod.fst = _
    rw [hc5, List.map_append, show (stage4 df (as_dict c)).cols.map Prod.fst =
      df.names ++ ["diff_tiered_income", "diff_ethics", "diff_politics", "diff_age"]
      from hname4, List.append_assoc]
    rfl
  have hnm6 : "diff_cultural" ∉ (stage5 df (as_dict c)).names := by
    rw [hname5]
    simp only [List.mem_append, List.mem_cons, List.mem_singleton, not_or]
    exact ⟨hdisj _ (by decide), by decide, by decide, by decide, by decide, by decide⟩
  have hc6 : (stage6 df (as_dict c) ccol).cols = (stage5 df (as_dict c)).cols ++
      [("diff_cultural", ccol.map (diff_cultural
        (normalize_cultural (dict_get (as_dict c) "cultural"))))] :=
    setCol_not_mem _ _ _ hnm6
  have hname6 : (stage6 df (as_dict c) ccol).names = df.names ++
      ["diff_tiered_income", "diff_ethics", "diff_politics", "diff_age", "diff_sex",
       "diff_cultural"] := by
    show (stage6 df (as_dict c) ccol).cols.map Prod.fst = _
    rw [hc6, List.map_append, show (stage5 df (as_dict c)).cols.map Prod.fst =
      df.names ++ ["diff_tiered_income", "diff_ethics", "diff_politics", "diff_age",
        "diff_sex"] from hname5, List.append_assoc]
    rfl
  have hnm7 : "base_score" ∉ (stage6 df (as_dict c) ccol).names := by
    rw [hname6]
    simp only [List.mem_append, List.mem_cons, List.mem_singleton, not_or]
    exact ⟨hdisj _ (by decide), by decide, by decide, by decide, by decide, by decide,
      by decide⟩
  have hc7 : ((stage6 df (as_dict c) ccol).setCol "base_score"
      (base_score_list (stage6 df (as_dict c) ccol))).cols =
      (stage6 df (as_dict c) ccol).cols ++
      [("base_score", base_score_list (stage6 df (as_dict c) ccol))] :=
    setCol_not_mem _ _ _ hnm7
  have hrun : compute_base_match_df df c =
      .ok ((stage6 df (as_dict c) ccol).setCol "base_score"
        (base_score_list (stage6 df (as_dict c) ccol))) := by
    simp only [compute_base_match_df]
    rw [hccol5]
  have hblen : (base_score_list (stage6 df (as_dict c) ccol)).length =
      (stage6 df (as_dict c) ccol).nrows := by
    simp [base_score_list]
  refine ⟨_, hrun, ?_, tiered_list df (as_dict c),
    num_list (stage1 df (as_dict c)) (as_dict c) "ethics",
    num_list (stage2 df (as_dict c)) (as_dict c) "politics",
    num_list (stage3 df (as_dict c)) (as_dict c) "age",
    num_list (stage4 df (as_dict c)) (as_dict c) "sex",
    ccol.map (diff_cultural (normalize_cultural (dict_get (as_dict c) "cultural"))),
    base_score_list (stage6 df (as_dict c) ccol),
    ?_, ?_, ?_, ?_, ?_, ?_, ?_, ?_⟩
  · rw [nrows_setCol _ _ _ hblen, n6]
  · rw [hc7, hc6, hc5, hc4, hc3, hc2, hc1]
    simp [List.append_assoc]
  · exact tiered_list_length df (as_dict c) hwf
  · rw [num_list_length _ _ _ w1, n1]
  · rw [num_list_length _ _ _ w2, n2]
  · rw [num_list_length _ _ _ w3, n3]
  · rw [num_list_length _ _ _ w4, n4]
  · simpa using getCol?_length df "cultural" ccol hwf hccol
  · rw [hblen, n6]

/-- Witness for the amended C9 on a concrete frame with a passthrough
column. -/
theorem C9_output_is_input_plus_seven_columns_witness :
    ∃ out, compute_base_match_df
        ⟨[("cultural", [Value.str "western"]), ("note", [Value.str "keep me"])]⟩
        (ContentArg.mapping []) = .ok out ∧
      out.nrows = (⟨[("cultural", [Value.str "western"]),
        ("note", [Value.str "keep me"])]⟩ : DataFrame).nrows ∧
      ∃ l1 l2 l3 l4 l5 l6 l7,
        out.cols = (⟨[("cultural", [Value.str "western"]),
          ("note", [Value.str "keep me"])]⟩ : DataFrame).cols ++
          [("diff_tiered_income", l1), ("diff_ethics", l2), ("diff_politics", l3),
           ("diff_age", l4), ("diff_sex", l5), ("diff_cultural", l6),
           ("base_score", l7)] ∧
        l1.length = (⟨[("cultural", [Value.str "western"]),
          ("note", [Value.str "keep me"])]⟩ : DataFrame).nrows ∧
        l2.length = (⟨[("cultural", [Value.str "western"]),
          ("note", [Value.str "keep me"])]⟩ : DataFrame).nrows ∧
        l3.length = (⟨[("cultural", [Value.str "western"]),
          ("note", [Value.str "keep me"])]⟩ : DataFrame).nrows ∧
        l4.length = (⟨[("cultural", [Value.str "western"]),
          ("note", [Value.str "keep me"])]⟩ : DataFrame).nrows ∧
        l5.length = (⟨[("cultural", [Value.str "western"]),
          ("note", [Value.str "keep me"])]⟩ : DataFrame).nrows ∧
        l6.length = (⟨[("cultural", [Value.str "western"]),
          ("note", [Value.str "keep me"])]⟩ : DataFrame).nrows ∧
        l7.length = (⟨[("cultural", [Value.str "western"]),
          ("note", [Value.str "keep me"])]⟩ : DataFrame).nrows :=
  C9_output_is_input_plus_seven_columns
    ⟨[("cultural", [Value.str "western"]), ("note", [Value.str "keep me"])]⟩
    (ContentArg.mapping []) (by decide) (by decide) (by decide)

theorem rat_floor_le (q : ℚ) : (q.floor : ℚ) ≤ q :=
  Rat.le_floor.mp (le_refl _)

theorem rat_lt_floor_add_one (q : ℚ) : q < (q.floor : ℚ) + 1 := by
  by_contra hcon
  push_neg at hcon
  have h2 : (q.floor + 1 : ℤ) ≤ q.floor := Rat.le_floor.mpr (by push_cast; exact hcon)
  omega

/-- Rounding half to even moves a rational by at most one half. -/
theorem round_half_even_close (q : ℚ) : |(round_half_even q : ℚ) - q| ≤ 1/2 := by
  have h0 : (q.floor : ℚ) ≤ q := rat_floor_le q
  have h1 : q < (q.floor : ℚ) + 1 := rat_lt_floor_add_one q
  simp only [round_half_even]
  by_cases hlt : q - (q.floor : ℚ) < 1/2
  · rw [if_pos hlt, abs_le]
    constructor <;> linarith
  · rw [if_neg hlt]
    by_cases hgt : 1/2 < q - (q.floor : ℚ)
    · rw [if_pos hgt, abs_le]
      push_cast
      constructor <;> linarith
    · rw [if_neg hgt]
      have heq : q - (q.floor : ℚ) = 1/2 := le_antisymm (not_lt.mp hgt) (not_lt.mp hlt)
      by_cases hev : q.floor % 2 = 0
      · rw [if_pos hev, abs_le]
        constructor <;> linarith
      · rw [if_neg hev, abs_le]
        push_cast
        constructor <;> linarith

theorem round_half_even_ge (q : ℚ) (z : ℤ) (h : (z : ℚ) ≤ q) :
    z ≤ round_half_even q := by
  have hfl : z ≤ q.floor := Rat.le_floor.mpr h
  simp only [round_half_even]
  by_cases hlt : q - (q.floor : ℚ) < 1/2
  · rw [if_pos hlt]
    exact hfl
  · rw [if_neg hlt]
    by_cases hgt : 1/2 < q - (q.floor : ℚ)
    · rw [if_pos hgt]
      omega
    · rw [if_neg hgt]
      by_cases hev : q.floor % 2 = 0
      · rw [if_pos hev]
        exact hfl
      · rw [if_neg hev]
        omega

theorem round_half_even_le (q : ℚ) (z : ℤ) (h : q ≤ (z : ℚ)) :
    round_half_even q ≤ z := by
  have hclose := round_half_even_close q
  rw [abs_le] at hclose
  have h2 : (round_half_even q : ℚ) ≤ (z : ℚ) + 1/2 := by linarith [hclose.2]
  have h3 : (round_half_even q : ℚ) < (z : ℚ) + 1 := by linarith
  have h4 : round_half_even q < z + 1 := by exact_mod_cast h3
  omega

theorem _validate_range_ok_inv (v lo hi : ℚ) (name : String) (w : ℚ)
    (h : _validate_range v lo hi name = .ok w) : w = v ∧ lo ≤ v ∧ v ≤ hi := by
  unfold _validate_range at h
  by_cases hb : lo ≤ v ∧ v ≤ hi
  · rw [if_pos hb] at h
    exact ⟨(Except.ok.injEq _ _).mp h |>.symm, hb⟩
  · rw [if_neg hb] at h
    exact Except.noConfusion h

theorem _validate_range_ok_of (v lo hi : ℚ) (name : String) (hb : lo ≤ v ∧ v ≤ hi) :
    _validate_range v lo hi name = .ok v := by
  unfold _validate_range
  rw [if_pos hb]

theorem _validate_range_error_inv (v lo hi : ℚ) (name : String) (e : String)
    (h : _validate_range v lo hi name = .error e) :
    ¬(lo ≤ v ∧ v ≤ hi) ∧ e = name ++ " must be between " ++ toString lo ++ " and " ++
      toString hi ++ ", got " ++ toString v := by
  unfold _validate_range at h
  by_cases hb : lo ≤ v ∧ v ≤ hi
  · rw [if_pos hb] at h
    exact Except.noConfusion h
  · rw [if_neg hb] at h
    exact ⟨hb, ((Except.error.injEq _ _).mp h).symm⟩

theorem _validate_education_ok_inv (v w : ℤ) (h : _validate_education v = .ok w) :
    w = v ∧ 1 ≤ v ∧ v ≤ 5 := by
  unfold _validate_education at h
  by_cases hb : 1 ≤ v ∧ v ≤ 5
  · rw [if_pos hb] at h
    exact ⟨(Except.ok.injEq _ _).mp h |>.symm, hb⟩
  · rw [if_neg hb] at h
    exact Except.noConfusion h

theorem _validate_education_ok_of (v : ℤ) (hb : 1 ≤ v ∧ v ≤ 5) :
    _validate_education v = .ok v := by
  unfold _validate_education
  rw [if_pos hb]

theorem _validate_education_error_inv (v : ℤ) (e : String)
    (h : _validate_education v = .error e) :
    ¬(1 ≤ v ∧ v ≤ 5) ∧
      e = "education must be an integer between 1 and 5, got " ++ toString v := by
  unfold _validate_education at h
  by_cases hb : 1 ≤ v ∧ v ≤ 5
  · rw [if_pos hb] at h
    exact Except.noConfusion h
  · rw [if_neg hb] at h
    exact ⟨hb, ((Except.error.injEq _ _).mp h).symm⟩

theorem _validate_economic_status_ok_inv (v w : ℚ)
    (h : _validate_economic_status v = .ok w) :
    w = (round_half_even (v / 5000) : ℚ) * 5000 ∧ 10000 ≤ v ∧ v ≤ 500000 := by
  unfold _validate_economic_status at h
  by_cases hb : 10000 ≤ v ∧ v ≤ 500000
  · rw [if_pos hb] at h
    exact ⟨(Except.ok.injEq _ _).mp h |>.symm, hb⟩
  · rw [if_neg hb] at h
    exact Except.noConfusion h

theorem _validate_economic_status_ok_of (v : ℚ) (hb : 10000 ≤ v ∧ v ≤ 500000) :
    _validate_economic_status v = .ok ((round_half_even (v / 5000) : ℚ) * 5000) := by
  unfold _validate_economic_status
  rw [if_pos hb]

theorem _validate_economic_status_error_inv (v : ℚ) (e : String)
    (h : _validate_economic_status v = .error e) :
    ¬(10000 ≤ v ∧ v ≤ 500000) ∧
      e = "economic_status must be between 10,000 and 500,000, got " ++ toString v := by
  unfold _validate_economic_status at h
  by_cases hb : 10000 ≤ v ∧ v ≤ 500000
  · rw [if_pos hb] at h
    exact Except.noConfusion h
  · rw [if_neg hb] at h
    exact ⟨hb, ((Except.error.injEq _ _).mp h).symm⟩

theorem _validate_politics_ok_inv (v w : ℤ) (h : _validate_politics v = .ok w) :
    w = v ∧ -2 ≤ v ∧ v ≤ 2 := by
  unfold _validate_politics at h
  by_cases hb : -2 ≤ v ∧ v ≤ 2
  · rw [if_pos hb] at h
    exact ⟨(Except.ok.injEq _ _).mp h |>.symm, hb⟩
  · rw [if_neg hb] at h
    exact Except.noConfusion h

theorem _validate_politics_ok_of (v : ℤ) (hb : -2 ≤ v ∧ v ≤ 2) :
    _validate_politics v = .ok v := by
  unfold _validate_politics
  rw [if_pos hb]

theorem _validate_politics_error_inv (v : ℤ) (e : String)
    (h : _validate_politics v = .error e) :
    ¬(-2 ≤ v ∧ v ≤ 2) ∧
      e = "politics must be an integer between -2 and 2, got " ++ toString v := by
  unfold _validate_politics at h
  by_cases hb : -2 ≤ v ∧ v ≤ 2
  · rw [if_pos hb] at h
    exact Except.noConfusion h
  · rw [if_neg hb] at h
    exact ⟨hb, ((Except.error.injEq _ _).mp h).symm⟩

theorem _validate_age_ok_inv (v w : ℤ) (h : _validate_age v = .ok w) :
    w = v ∧ 5 ≤ v ∧ v ≤ 90 := by
  unfold _validate_age at h
  by_cases hb : 5 ≤ v ∧ v ≤ 90
  · rw [if_pos hb] at h
    exact ⟨(Except.ok.injEq _ _).mp h |>.symm, hb⟩
  · rw [if_neg hb] at h
    exact Except.noConfusion h

theorem _validate_age_ok_of (v : ℤ) (hb : 5 ≤ v ∧ v ≤ 90) :
    _validate_age v = .ok v := by
  unfold _validate_age
  rw [if_pos hb]

theorem _validate_age_error_inv (v : ℤ) (e : String)
    (h : _validate_age v = .error e) :
    ¬(5 ≤ v ∧ v ≤ 90) ∧
      e = "age must be an integer between 5 and 90, got " ++ toString v := by
  unfold _validate_age at h
  by_cases hb : 5 ≤ v ∧ v ≤ 90
  · rw [if_pos hb] at h
    exact Except.noConfusion h
  · rw [if_neg hb] at h
    exact ⟨hb, ((Except.error.injEq _ _).mp h).symm⟩

theorem _validate_sex_ok_inv (v w : ℤ) (h : _validate_sex v = .ok w) :
    w = v ∧ (v = 0 ∨ v = 1 ∨ v = 2) := by
  unfold _validate_sex at h
  by_cases hb : v = 0 ∨ v = 1 ∨ v = 2
  · rw [if_pos hb] at h
    exact ⟨(Except.ok.injEq _ _).mp h |>.symm, hb⟩
  · rw [if_neg hb] at h
    exact Except.noConfusion h

theorem _validate_sex_ok_of (v : ℤ) (hb : v = 0 ∨ v = 1 ∨ v = 2) :
    _validate_sex v = .ok v := by
  unfold _validate_sex
  rw [if_pos hb]

theorem _validate_sex_error_inv (v : ℤ) (e : String)
    (h : _validate_sex v = .error e) :
    ¬(v = 0 ∨ v = 1 ∨ v = 2) ∧ e = "sex must be 0, 1, or 2, got " ++ toString v := by
  unfold _validate_sex at h
  by_cases hb : v = 0 ∨ v = 1 ∨ v = 2
  · rw [if_pos hb] at h
    exact Except.noConfusion h
  · rw [if_neg hb] at h
    exact ⟨hb, ((Except.error.injEq _ _).mp h).symm⟩

theorem content_validate_sex_ok_inv (v w : ℤ) (h : content_validate_sex v = .ok w) :
    w = v ∧ (v = 0 ∨ v = 1) := by
  unfold content_validate_sex at h
  by_cases hb : v = 0 ∨ v = 1
  · rw [if_pos hb] at h
    exact ⟨(Except.ok.injEq _ _).mp h |>.symm, hb⟩
  · rw [if_neg hb] at h
    exact Except.noConfusion h

theorem content_validate_sex_ok_of (v : ℤ) (hb : v = 0 ∨ v = 1) :
    content_validate_sex v = .ok v := by
  unfold content_validate_sex
  rw [if_pos hb]

theorem content_validate_sex_error_inv (v : ℤ) (e : String)
    (h : content_validate_sex v = .error e) :
    ¬(v = 0 ∨ v = 1) ∧ e = "sex must be 0 or 1, got " ++ toString v := by
  unfold content_validate_sex at h
  by_cases hb : v = 0 ∨ v = 1
  · rw [if_pos hb] at h
    exact Except.noConfusion h
  · rw [if_neg hb] at h
    exact ⟨hb, ((Except.error.injEq _ _).mp h).symm⟩

theorem coerce_cultural_ok_of (ca : CulturalArg) (hb : culturalArgValid ca) :
    ∃ w, coerce_cultural ca = .ok w := by
  cases ca with
  | enum c => exact ⟨c, rfl⟩
  | raw s =>
    simp only [culturalArgValid] at hb
    cases hv : CulturalEnum.ofValue s with
    | none =>
      rw [hv] at hb
      simp at hb
    | some c =>
      refine ⟨c, ?_⟩
      simp only [coerce_cultural]
      rw [hv]

theorem coerce_cultural_ok_inv (ca : CulturalArg) (w : CulturalEnum)
    (h : coerce_cultural ca = .ok w) : culturalArgValid ca := by
  cases ca with
  | enum c => trivial
  | raw s =>
    simp only [coerce_cultural] at h
    simp only [culturalArgValid]
    cases hv : CulturalEnum.ofValue s with
    | none =>
      rw [hv] at h
      exact Except.noConfusion h
    | some c => simp

theorem coerce_cultural_error_inv (ca : CulturalArg) (e : String)
    (h : coerce_cultural ca = .error e) :
    ¬ culturalArgValid ca ∧
      ∃ s, ca = .raw s ∧ e = "'" ++ s ++ "' is not a valid CulturalEnum" := by
  cases ca with
  | enum c => exact Except.noConfusion h
  | raw s =>
    simp only [coerce_cultural] at h
    cases hv : CulturalEnum.ofValue s with
    | none =>
      rw [hv] at h
      refine ⟨?_, s, rfl, ((Except.error.injEq _ _).mp h).symm⟩
      simp only [culturalArgValid]
      rw [hv]
      simp
    | some c =>
      rw [hv] at h
      exact Except.noConfusion h

theorem Agent_init_ok_inv (x : AgentArgs) (a : Agent) (h : Agent.init x = .ok a) :
    _validate_education x.education = .ok a.education ∧
    _validate_economic_status x.economic_status = .ok a.economic_status ∧
    _validate_range x.ethics 0 1 "ethics" = .ok a.ethics ∧
    _validate_politics x.politics = .ok a.politics ∧
    coerce_cultural x.cultural = .ok a.cultural ∧
    _validate_age x.age = .ok a.age ∧
    _validate_sex x.sex = .ok a.sex ∧
    _validate_range x.novelty 0 1 "novelty" = .ok a.novelty ∧
    _validate_range x.conscientiousness 0 1 "conscientiousness" = .ok a.conscientiousness ∧
    _validate_range x.impulsivity 0 1 "impulsivity" = .ok a.impulsivity ∧
    _validate_range x.tech_affinity 0 1 "tech_affinity" = .ok a.tech_affinity ∧
    _validate_range x.social_trust 0 1 "social_trust" = .ok a.social_trust := by
  simp only [Agent.init] at h
  repeat' split at h
  all_goals try exact Except.noConfusion h
  all_goals injection h with h
  all_goals subst h
  all_goals exact ⟨by assumption, by assumption, by assumption, by assumption,
    by assumption, by assumption, by assumption, by assumption, by assumption,
    by assumption, by assumption, by assumption⟩

theorem Agent_init_isOk_of (x : AgentArgs) (hv : agentArgsValid x) :
    (Agent.init x).isOk = true := by
  obtain ⟨h1, h2, h3, h4, h5, h6, h7, h8, h9, h10, h11, h12⟩ := hv
  obtain ⟨cw, hcw⟩ := coerce_cultural_ok_of x.cultural h5
  simp only [Agent.init]
  rw [_validate_education_ok_of _ h1, _validate_economic_status_ok_of _ h2,
    _validate_range_ok_of _ _ _ _ h3, _validate_politics_ok_of _ h4, hcw,
    _validate_age_ok_of _ h6, _validate_sex_ok_of _ h7,
    _validate_range_ok_of _ _ _ _ h8, _validate_range_ok_of _ _ _ _ h9,
    _validate_range_ok_of _ _ _ _ h10, _validate_range_ok_of _ _ _ _ h11,
    _validate_range_ok_of _ _ _ _ h12]
  rfl

theorem Agent_init_error_inv (x : AgentArgs) (e : String)
    (h : Agent.init x = .error e) :
    _validate_education x.education = .error e ∨
    _validate_economic_status x.economic_status = .error e ∨
    _validate_range x.ethics 0 1 "ethics" = .error e ∨
    _validate_politics x.politics = .error e ∨
    coerce_cultural x.cultural = .error e ∨
    _validate_age x.age = .error e ∨
    _validate_sex x.sex = .error e ∨
    _validate_range x.novelty 0 1 "novelty" = .error e ∨
    _validate_range x.conscientiousness 0 1 "conscientiousness" = .error e ∨
    _validate_range x.impulsivity 0 1 "impulsivity" = .error e ∨
    _validate_range x.tech_affinity 0 1 "tech_affinity" = .error e ∨
    _validate_range x.social_trust 0 1 "social_trust" = .error e := by
  simp only [Agent.init] at h
  repeat' split at h
  all_goals try exact Except.noConfusion h
  all_goals injection h with h
  all_goals subst h
  all_goals
    first
    | exact Or.inl (by assumption)
    | exact Or.inr (Or.inl (by assumption))
    | exact Or.inr (Or.inr (Or.inl (by assumption)))
    | exact Or.inr (Or.inr (Or.inr (Or.inl (by assumption))))
    | exact Or.inr (Or.inr (Or.inr (Or.inr (Or.inl (by assumption)))))
    | exact Or.inr (Or.inr (Or.inr (Or.inr (Or.inr (Or.inl (by assumption))))))
    | exact Or.inr (Or.inr (Or.inr (Or.inr (Or.inr (Or.inr (Or.inl (by assumption)))))))
    | exact Or.inr (Or.inr (Or.inr (Or.inr (Or.inr (Or.inr (Or.inr
        (Or.inl (by assumption))))))))
    | exact Or.inr (Or.inr (Or.inr (Or.inr (Or.inr (Or.inr (Or.inr (Or.inr
        (Or.inl (by assumption)))))))))
    | exact Or.inr (Or.inr (Or.inr (Or.inr (Or.inr (Or.inr (Or.inr (Or.inr (Or.inr
        (Or.inl (by assumption))))))))))
    | exact Or.inr (Or.inr (Or.inr (Or.inr (Or.inr (Or.inr (Or.inr (Or.inr (Or.inr
        (Or.inr (Or.inl (by assumption)))))))))))
    | exact Or.inr (Or.inr (Or.inr (Or.inr (Or.inr (Or.inr (Or.inr (Or.inr (Or.inr
        (Or.inr (Or.inr (by assumption)))))))))))

theorem validateOpt_ok_inv {α β : Type} (f : α → Except String β) (v : Option α)
    (w : Option β) (h : validateOpt f v = .ok w) :
    (v = Option.none ∧ w = Option.none) ∨
      ∃ a b, v = some a ∧ w = some b ∧ f a = .ok b := by
  cases v with
  | none =>
    simp only [validateOpt] at h
    exact Or.inl ⟨rfl, ((Except.ok.injEq _ _).mp h).symm⟩
  | some a =>
    simp only [validateOpt] at h
    cases hf : f a with
    | error e =>
      rw [hf] at h
      exact Except.noConfusion h
    | ok b =>
      rw [hf] at h
      refine Or.inr ⟨a, b, rfl, ?_, hf⟩
      exact ((Except.ok.injEq _ _).mp h).symm

theorem validateOpt_ok_none {α β : Type} (f : α → Except String β) :
    validateOpt f Option.none = .ok Option.none := rfl

theorem validateOpt_ok_some {α β : Type} (f : α → Except String β) (a : α) (b : β)
    (h : f a = .ok b) : validateOpt f (some a) = .ok (some b) := by
  simp only [validateOpt]
  rw [h]
  rfl

theorem validateOpt_error_inv {α β : Type} (f : α → Except String β) (v : Option α)
    (e : String) (h : validateOpt f v = .error e) :
    ∃ a, v = some a ∧ f a = .error e := by
  cases v with
  | none =>
    simp only [validateOpt] at h
    exact Except.noConfusion h
  | some a =>
    simp only [validateOpt] at h
    cases hf : f a with
    | error e2 =>
      rw [hf] at h
      refine ⟨a, rfl, ?_⟩
      rw [hf]
      exact congrArg Except.error ((Except.error.injEq _ _).mp h)
    | ok b =>
      rw [hf] at h
      exact Except.noConfusion h

theorem Content_init_ok_inv (y : ContentArgs) (cnt : Content)
    (h : Content.init y = .ok cnt) :
    validateOpt _validate_education y.education = .ok cnt.education ∧
    validateOpt _validate_economic_status y.economic_status = .ok cnt.economic_status ∧
    validateOpt (fun v => _validate_range v 0 1 "ethics") y.ethics = .ok cnt.ethics ∧
    validateOpt _validate_politics y.politics = .ok cnt.politics ∧
    validateOpt coerce_cultural y.cultural = .ok cnt.cultural ∧
    validateOpt _validate_age y.age = .ok cnt.age ∧
    validateOpt content_validate_sex y.sex = .ok cnt.sex ∧
    validateOpt (fun v => _validate_range v 0 1 "novelty") y.novelty = .ok cnt.novelty ∧
    validateOpt (fun v => _validate_range v 0 1 "conscientiousness") y.conscientiousness =
      .ok cnt.conscientiousness ∧
    validateOpt (fun v => _validate_range v 0 1 "impulsivity") y.impulsivity =
      .ok cnt.impulsivity ∧
    validateOpt (fun v => _validate_range v 0 1 "tech_affinity") y.tech_affinity =
      .ok cnt.tech_affinity ∧
    validateOpt (fun v => _validate_range v 0 1 "social_trust") y.social_trust =
      .ok cnt.social_trust := by
  simp only [Content.init] at h
  repeat' split at h
  all_goals try exact Except.noConfusion h
  all_goals injection h with h
  all_goals subst h
  all_goals exact ⟨by assumption, by assumption, by assumption, by assumption,
    by assumption, by assumption, by assumption, by assumption, by assumption,
    by assumption, by assumption, by assumption⟩

theorem Content_init_error_inv (y : ContentArgs) (e : String)
    (h : Content.init y = .error e) :
    validateOpt _validate_education y.education = .error e ∨
    validateOpt _validate_economic_status y.economic_status = .error e ∨
    validateOpt (fun v => _validate_range v 0 1 "ethics") y.ethics = .error e ∨
    validateOpt _validate_politics y.politics = .error e ∨
    validateOpt coerce_cultural y.cultural = .error e ∨
    validateOpt _validate_age y.age = .error e ∨
    validateOpt content_validate_sex y.sex = .error e ∨
    validateOpt (fun v => _validate_range v 0 1 "novelty") y.novelty = .error e ∨
    validateOpt (fun v => _validate_range v 0 1 "conscientiousness") y.conscientiousness =
      .error e ∨
    validateOpt (fun v => _validate_range v 0 1 "impulsivity") y.impulsivity = .error e ∨
    validateOpt (fun v => _validate_range v 0 1 "tech_affinity") y.tech_affinity =
      .error e ∨
    validateOpt (fun v => _validate_range v 0 1 "social_trust") y.social_trust =
      .error e := by
  simp only [Content.init] at h
  repeat' split at h
  all_goals try exact Except.noConfusion h
  all_goals injection h with h
  all_goals subst h
  all_goals
    first
    | exact Or.inl (by assumption)
    | exact Or.inr (Or.inl (by assumption))
    | exact Or.inr (Or.inr (Or.inl (by assumption)))
    | exact Or.inr (Or.inr (Or.inr (Or.inl (by assumption))))
    | exact Or.inr (Or.inr (Or.inr (Or.inr (Or.inl (by assumption)))))
    | exact Or.inr (Or.inr (Or.inr (Or.inr (Or.inr (Or.inl (by assumption))))))
    | exact Or.inr (Or.inr (Or.inr (Or.inr (Or.inr (Or.inr (Or.inl (by assumption)))))))
    | exact Or.inr (Or.inr (Or.inr (Or.inr (Or.inr (Or.inr (Or.inr
        (Or.inl (by assumption))))))))
    | exact Or.inr (Or.inr (Or.inr (Or.inr (Or.inr (Or.inr (Or.inr (Or.inr
        (Or.inl (by assumption)))))))))
    | exact Or.inr (Or.inr (Or.inr (Or.inr (Or.inr (Or.inr (Or.inr (Or.inr (Or.inr
        (Or.inl (by assumption))))))))))
    | exact Or.inr (Or.inr (Or.inr (Or.inr (Or.inr (Or.inr (Or.inr (Or.inr (Or.inr
        (Or.inr (Or.inl (by assumption)))))))))))
    | exact Or.inr (Or.inr (Or.inr (Or.inr (Or.inr (Or.inr (Or.inr (Or.inr (Or.inr
        (Or.inr (Or.inr (by assumption)))))))))))

theorem Content_init_isOk_of (y : ContentArgs) (hv : contentArgsValid y) :
    (Content.init y).isOk = true := by
  obtain ⟨h1, h2, h3, h4, h5, h6, h7, h8, h9, h10, h11, h12⟩ := hv
  have k1 : ∃ w, validateOpt _validate_education y.education = .ok w := by
    cases hy : y.education with
    | none => exact ⟨Option.none, rfl⟩
    | some v =>
      rw [hy] at h1
      exact ⟨some v, validateOpt_ok_some _ v v (_validate_education_ok_of v h1)⟩
  have k2 : ∃ w, validateOpt _validate_economic_status y.economic_status = .ok w := by
    cases hy : y.economic_status with
    | none => exact ⟨Option.none, rfl⟩
    | some v =>
      rw [hy] at h2
      exact ⟨some _, validateOpt_ok_some _ v _ (_validate_economic_status_ok_of v h2)⟩
  have k3 : ∃ w, validateOpt (fun v => _validate_range v 0 1 "ethics") y.ethics =
      .ok w := by
    cases hy : y.ethics with
    | none => exact ⟨Option.none, rfl⟩
    | some v =>
      rw [hy] at h3
      exact ⟨some v, validateOpt_ok_some _ v v (_validate_range_ok_of v 0 1 _ h3)⟩
  have k4 : ∃ w, validateOpt _validate_politics y.politics = .ok w := by
    cases hy : y.politics with
    | none => exact ⟨Option.none, rfl⟩
    | some v =>
      rw [hy] at h4
      exact ⟨some v, validateOpt_ok_some _ v v (_validate_politics_ok_of v h4)⟩
  have k5 : ∃ w, validateOpt coerce_cultural y.cultural = .ok w := by
    cases hy : y.cultural with
    | none => exact ⟨Option.none, rfl⟩
    | some ca =>
      rw [hy] at h5
      obtain ⟨w, hw⟩ := coerce_cultural_ok_of ca h5
      exact ⟨some w, validateOpt_ok_some _ ca w hw⟩
  have k6 : ∃ w, validateOpt _validate_age y.age = .ok w := by
    cases hy : y.age with
    | none => exact ⟨Option.none, rfl⟩
    | some v =>
      rw [hy] at h6
      exact ⟨some v, validateOpt_ok_some _ v v (_validate_age_ok_of v h6)⟩
  have k7 : ∃ w, validateOpt content_validate_sex y.sex = .ok w := by
    cases hy : y.sex with
    | none => exact ⟨Option.none, rfl⟩
    | some v =>
      rw [hy] at h7
      exact ⟨some v, validateOpt_ok_some _ v v (content_validate_sex_ok_of v h7)⟩
  have k8 : ∃ w, validateOpt (fun v => _validate_range v 0 1 "novelty") y.novelty =
      .ok w := by
    cases hy : y.novelty with
    | none => exact ⟨Option.none, rfl⟩
    | some v =>
      rw [hy] at h8
      exact ⟨some v, validateOpt_ok_some _ v v (_validate_range_ok_of v 0 1 _ h8)⟩
  have k9 : ∃ w, validateOpt (fun v => _validate_range v 0 1 "conscientiousness")
      y.conscientiousness = .ok w := by
    cases hy : y.conscientiousness with
    | none => exact ⟨Option.none, rfl⟩
    | some v =>
      rw [hy] at h9
      exact ⟨some v, validateOpt_ok_some _ v v (_validate_range_ok_of v 0 1 _ h9)⟩
  have k10 : ∃ w, validateOpt (fun v => _validate_range v 0 1 "impulsivity")
      y.impulsivity = .ok w := by
    cases hy : y.impulsivity with
    | none => exact ⟨Option.none, rfl⟩
    | some v =>
      rw [hy] at h10
      exact ⟨some v, validateOpt_ok_some _ v v (_validate_range_ok_of v 0 1 _ h10)⟩
  have k11 : ∃ w, validateOpt (fun v => _validate_range v 0 1 "tech_affinity")
      y.tech_affinity = .ok w := by
    cases hy : y.tech_affinity with
    | none => exact ⟨Option.none, rfl⟩
    | some v =>
      rw [hy] at h11
      exact ⟨some v, validateOpt_ok_some _ v v (_validate_range_ok_of v 0 1 _ h11)⟩
  have k12 : ∃ w, validateOpt (fun v => _validate_range v 0 1 "social_trust")
      y.social_trust = .ok w := by
    cases hy : y.social_trust with
    | none => exact ⟨Option.none, rfl⟩
    | some v =>
      rw [hy] at h12
      exact ⟨some v, validateOpt_ok_some _ v v (_validate_range_ok_of v 0 1 _ h12)⟩
  obtain ⟨w1, hw1⟩ := k1
  obtain ⟨w2, hw2⟩ := k2
  obtain ⟨w3, hw3⟩ := k3
  obtain ⟨w4, hw4⟩ := k4
  obtain ⟨w5, hw5⟩ := k5
  obtain ⟨w6, hw6⟩ := k6
  obtain ⟨w7, hw7⟩ := k7
  obtain ⟨w8, hw8⟩ := k8
  obtain ⟨w9, hw9⟩ := k9
  obtain ⟨w10, hw10⟩ := k10
  obtain ⟨w11, hw11⟩ := k11
  obtain ⟨w12, hw12⟩ := k12
  simp only [Content.init]
  rw [hw1, hw2, hw3, hw4, hw5, hw6, hw7, hw8, hw9, hw10, hw11, hw12]
  rfl

theorem econ_rounded_in_range (v : ℚ) (hb : 10000 ≤ v ∧ v ≤ 500000) :
    10000 ≤ (round_half_even (v / 5000) : ℚ) * 5000 ∧
      (round_half_even (v / 5000) : ℚ) * 5000 ≤ 500000 := by
  have hlo : (2 : ℤ) ≤ round_half_even (v / 5000) := by
    refine round_half_even_ge _ 2 ?_
    rw [le_div_iff (by norm_num : (0:ℚ) < 5000)]
    push_cast
    linarith [hb.1]
  have hhi : round_half_even (v / 5000) ≤ 100 := by
    refine round_half_even_le _ 100 ?_
    rw [div_le_iff (by norm_num : (0:ℚ) < 5000)]
    push_cast
    linarith [hb.2]
  have hloq : (2:ℚ) ≤ (round_half_even (v / 5000) : ℚ) := by exact_mod_cast hlo
  have hhiq : ((round_half_even (v / 5000)) : ℚ) ≤ 100 := by exact_mod_cast hhi
  constructor <;> nlinarith

/-- **C7.** Constructor inputs whose fields all satisfy their declared
bounds produce a record whose every (present) field satisfies its bound —
with `Content.sex` restricted to {0, 1} — and this is exact: construction
succeeds precisely on such inputs, and any violation makes it fail with
the `ValueError` message generated for a genuinely invalid field (the
range messages interpolate the field's name; the `cultural` slot raises
the enum-conversion message).  Failure returns only an error, so no
partially-initialized record is ever exposed. -/
theorem C7_construction_validates_atomically :
    (∀ x a, Agent.init x = .ok a → agentBounds a) ∧
    (∀ x, agentArgsValid x ↔ (Agent.init x).isOk = true) ∧
    (∀ x e, Agent.init x = .error e →
      ∃ fld, agentFieldInvalid x fld ∧ e = agentErrMsg x fld) ∧
    (∀ y cnt, Content.init y = .ok cnt → contentBounds cnt) ∧
    (∀ y, contentArgsValid y ↔ (Content.init y).isOk = true) ∧
    (∀ y e, Content.init y = .error e →
      ∃ fld, contentFieldInvalid y fld ∧ e = contentErrMsg y fld) := by
  refine ⟨?_, ?_, ?_, ?_, ?_, ?_⟩
  · -- Agent: ok → bounds
    intro x a h
    obtain ⟨h1, h2, h3, h4, h5, h6, h7, h8, h9, h10, h11, h12⟩ := Agent_init_ok_inv x a h
    obtain ⟨e1, b1⟩ := _validate_education_ok_inv _ _ h1
    obtain ⟨e2, b2⟩ := _validate_economic_status_ok_inv _ _ h2
    obtain ⟨e3, b3⟩ := _validate_range_ok_inv _ _ _ _ _ h3
    obtain ⟨e4, b4⟩ := _validate_politics_ok_inv _ _ h4
    obtain ⟨e6, b6⟩ := _validate_age_ok_inv _ _ h6
    obtain ⟨e7, b7⟩ := _validate_sex_ok_inv _ _ h7
    obtain ⟨e8, b8⟩ := _validate_range_ok_inv _ _ _ _ _ h8
    obtain ⟨e9, b9⟩ := _validate_range_ok_inv _ _ _ _ _ h9
    obtain ⟨e10, b10⟩ := _validate_range_ok_inv _ _ _ _ _ h10
    obtain ⟨e11, b11⟩ := _validate_range_ok_inv _ _ _ _ _ h11
    obtain ⟨e12, b12⟩ := _validate_range_ok_inv _ _ _ _ _ h12
    exact ⟨by rw [e1]; exact b1, by rw [e2]; exact econ_rounded_in_range _ b2,
      by rw [e3]; exact b3, by rw [e4]; exact b4, by rw [e6]; exact b6,
      by rw [e7]; exact b7, by rw [e8]; exact b8, by rw [e9]; exact b9,
      by rw [e10]; exact b10, by rw [e11]; exact b11, by rw [e12]; exact b12⟩
  · -- Agent: valid ↔ isOk
    intro x
    constructor
    · exact Agent_init_isOk_of x
    · intro hok
      cases hinit : Agent.init x with
      | error e =>
        rw [hinit] at hok
        simp [Except.isOk, Except.toBool] at hok
      | ok a =>
        obtain ⟨h1, h2, h3, h4, h5, h6, h7, h8, h9, h10, h11, h12⟩ :=
          Agent_init_ok_inv x a hinit
        exact ⟨(_validate_education_ok_inv _ _ h1).2,
          (_validate_economic_status_ok_inv _ _ h2).2,
          (_validate_range_ok_inv _ _ _ _ _ h3).2,
          (_validate_politics_ok_inv _ _ h4).2,
          coerce_cultural_ok_inv _ _ h5,
          (_validate_age_ok_inv _ _ h6).2,
          (_validate_sex_ok_inv _ _ h7).2,
          (_validate_range_ok_inv _ _ _ _ _ h8).2,
          (_validate_range_ok_inv _ _ _ _ _ h9).2,
          (_validate_range_ok_inv _ _ _ _ _ h10).2,
          (_validate_range_ok_inv _ _ _ _ _ h11).2,
          (_validate_range_ok_inv _ _ _ _ _ h12).2⟩
  · -- Agent: error → named invalid field
    intro x e h
    rcases Agent_init_error_inv x e h with h | h | h | h | h | h | h | h | h | h | h | h
    · obtain ⟨hbad, hmsg⟩ := _validate_education_error_inv _ _ h
      exact ⟨"education", hbad, hmsg⟩
    · obtain ⟨hbad, hmsg⟩ := _validate_economic_status_error_inv _ _ h
      exact ⟨"economic_status", hbad, hmsg⟩
    · obtain ⟨hbad, hmsg⟩ := _validate_range_error_inv _ _ _ _ _ h
      exact ⟨"ethics", hbad, hmsg⟩
    · obtain ⟨hbad, hmsg⟩ := _validate_politics_error_inv _ _ h
      exact ⟨"politics", hbad, hmsg⟩
    · obtain ⟨hbad, s, hs, hmsg⟩ := coerce_cultural_error_inv _ _ h
      refine ⟨"cultural", hbad, ?_⟩
      have : agentErrMsg x "cultural" = "'" ++ s ++ "' is not a valid CulturalEnum" := by
        simp only [agentErrMsg]
        rw [hs]
      rw [this]
      exact hmsg
    · obtain ⟨hbad, hmsg⟩ := _validate_age_error_inv _ _ h
      exact ⟨"age", hbad, hmsg⟩
    · obtain ⟨hbad, hmsg⟩ := _validate_sex_error_inv _ _ h
      exact ⟨"sex", hbad, hmsg⟩
    · obtain ⟨hbad, hmsg⟩ := _validate_range_error_inv _ _ _ _ _ h
      exact ⟨"novelty", hbad, hmsg⟩
    · obtain ⟨hbad, hmsg⟩ := _validate_range_error_inv _ _ _ _ _ h
      exact ⟨"conscientiousness", hbad, hmsg⟩
    · obtain ⟨hbad, hmsg⟩ := _validate_range_error_inv _ _ _ _ _ h
      exact ⟨"impulsivity", hbad, hmsg⟩
    · obtain ⟨hbad, hmsg⟩ := _validate_range_error_inv _ _ _ _ _ h
      exact ⟨"tech_affinity", hbad, hmsg⟩
    · obtain ⟨hbad, hmsg⟩ := _validate_range_error_inv _ _ _ _ _ h
      exact ⟨"social_trust", hbad, hmsg⟩
  · -- Content: ok → bounds on present fields
    intro y cnt h
    obtain ⟨h1, h2, h3, h4, h5, h6, h7, h8, h9, h10, h11, h12⟩ :=
      Content_init_ok_inv y cnt h
    refine ⟨?_, ?_, ?_, ?_, ?_, ?_, ?_, ?_, ?_, ?_, ?_⟩
    · rcases validateOpt_ok_inv _ _ _ h1 with ⟨-, hw⟩ | ⟨a0, b0, ha0, hb0, hf⟩
      · rw [hw]; trivial
      · rw [hb0]
        obtain ⟨heq, hbnd⟩ := _validate_education_ok_inv _ _ hf
        simp only [optionHolds]
        rw [heq]
        exact hbnd
    · rcases validateOpt_ok_inv _ _ _ h2 with ⟨-, hw⟩ | ⟨a0, b0, ha0, hb0, hf⟩
      · rw [hw]; trivial
      · rw [hb0]
        obtain ⟨heq, hbnd⟩ := _validate_economic_status_ok_inv _ _ hf
        simp only [optionHolds]
        rw [heq]
        exact econ_rounded_in_range _ hbnd
    · rcases validateOpt_ok_inv _ _ _ h3 with ⟨-, hw⟩ | ⟨a0, b0, ha0, hb0, hf⟩
      · rw [hw]; trivial
      · rw [hb0]
        obtain ⟨heq, hbnd⟩ := _validate_range_ok_inv _ _ _ _ _ hf
        simp only [optionHolds]
        rw [heq]
        exact hbnd
    · rcases validateOpt_ok_inv _ _ _ h4 with ⟨-, hw⟩ | ⟨a0, b0, ha0, hb0, hf⟩
      · rw [hw]; trivial
      · rw [hb0]
        obtain ⟨heq, hbnd⟩ := _validate_politics_ok_inv _ _ hf
        simp only [optionHolds]
        rw [heq]
        exact hbnd
    · rcases validateOpt_ok_inv _ _ _ h6 with ⟨-, hw⟩ | ⟨a0, b0, ha0, hb0, hf⟩
      · rw [hw]; trivial
      · rw [hb0]
        obtain ⟨heq, hbnd⟩ := _validate_age_ok_inv _ _ hf
        simp only [optionHolds]
        rw [heq]
        exact hbnd
    · rcases validateOpt_ok_inv _ _ _ h7 with ⟨-, hw⟩ | ⟨a0, b0, ha0, hb0, hf⟩
      · rw [hw]; trivial
      · rw [hb0]
        obtain ⟨heq, hbnd⟩ := content_validate_sex_ok_inv _ _ hf
        simp only [optionHolds]
        rw [heq]
        exact hbnd
    · rcases validateOpt_ok_inv _ _ _ h8 with ⟨-, hw⟩ | ⟨a0, b0, ha0, hb0, hf⟩
      · rw [hw]; trivial
      · rw [hb0]
        obtain ⟨heq, hbnd⟩ := _validate_range_ok_inv _ _ _ _ _ hf
        simp only [optionHolds]
        rw [heq]
        exact hbnd
    · rcases validateOpt_ok_inv _ _ _ h9 with ⟨-, hw⟩ | ⟨a0, b0, ha0, hb0, hf⟩
      · rw [hw]; trivial
      · rw [hb0]
        obtain ⟨heq, hbnd⟩ := _validate_range_ok_inv _ _ _ _ _ hf
        simp only [optionHolds]
        rw [heq]
        exact hbnd
    · rcases validateOpt_ok_inv _ _ _ h10 with ⟨-, hw⟩ | ⟨a0, b0, ha0, hb0, hf⟩
      · rw [hw]; trivial
      · rw [hb0]
        obtain ⟨heq, hbnd⟩ := _validate_range_ok_inv _ _ _ _ _ hf
        simp only [optionHolds]
        rw [heq]
        exact hbnd
    · rcases validateOpt_ok_inv _ _ _ h11 with ⟨-, hw⟩ | ⟨a0, b0, ha0, hb0, hf⟩
      · rw [hw]; trivial
      · rw [hb0]
        obtain ⟨heq, hbnd⟩ := _validate_range_ok_inv _ _ _ _ _ hf
        simp only [optionHolds]
        rw [heq]
        exact hbnd
    · rcases validateOpt_ok_inv _ _ _ h12 with ⟨-, hw⟩ | ⟨a0, b0, ha0, hb0, hf⟩
      · rw [hw]; trivial
      · rw [hb0]
        obtain ⟨heq, hbnd⟩ := _validate_range_ok_inv _ _ _ _ _ hf
        simp only [optionHolds]
        rw [heq]
        exact hbnd
  · -- Content: valid ↔ isOk
    intro y
    constructor
    · exact Content_init_isOk_of y
    · intro hok
      cases hinit : Content.init y with
      | error e =>
        rw [hinit] at hok
        simp [Except.isOk, Except.toBool] at hok
      | ok cnt =>
        obtain ⟨h1, h2, h3, h4, h5, h6, h7, h8, h9, h10, h11, h12⟩ :=
          Content_init_ok_inv y cnt hinit
        refine ⟨?_, ?_, ?_, ?_, ?_, ?_, ?_, ?_, ?_, ?_, ?_, ?_⟩
        · rcases validateOpt_ok_inv _ _ _ h1 with ⟨hv, -⟩ | ⟨a0, b0, ha0, hb0, hf⟩
          · rw [hv]; trivial
          · rw [ha0]
            simp only [optionHolds]
            exact (_validate_education_ok_inv _ _ hf).2
        · rcases validateOpt_ok_inv _ _ _ h2 with ⟨hv, -⟩ | ⟨a0, b0, ha0, hb0, hf⟩
          · rw [hv]; trivial
          · rw [ha0]
            simp only [optionHolds]
            exact (_validate_economic_status_ok_inv _ _ hf).2
        · rcases validateOpt_ok_inv _ _ _ h3 with ⟨hv, -⟩ | ⟨a0, b0, ha0, hb0, hf⟩
          · rw [hv]; trivial
          · rw [ha0]
            simp only [optionHolds]
            exact (_validate_range_ok_inv _ _ _ _ _ hf).2
        · rcases validateOpt_ok_inv _ _ _ h4 with ⟨hv, -⟩ | ⟨a0, b0, ha0, hb0, hf⟩
          · rw [hv]; trivial
          · rw [ha0]
            simp only [optionHolds]
            exact (_validate_politics_ok_inv _ _ hf).2
        · rcases validateOpt_ok_inv _ _ _ h5 with ⟨hv, -⟩ | ⟨a0, b0, ha0, hb0, hf⟩
          · rw [hv]; trivial
          · rw [ha0]
            simp only [optionHolds]
            exact coerce_cultural_ok_inv _ _ hf
        · rcases validateOpt_ok_inv _ _ _ h6 with ⟨hv, -⟩ | ⟨a0, b0, ha0, hb0, hf⟩
          · rw [hv]; trivial
          · rw [ha0]
            simp only [optionHolds]
            exact (_validate_age_ok_inv _ _ hf).2
        · rcases validateOpt_ok_inv _ _ _ h7 with ⟨hv, -⟩ | ⟨a0, b0, ha0, hb0, hf⟩
          · rw [hv]; trivial
          · rw [ha0]
            simp only [optionHolds]
            exact (content_validate_sex_ok_inv _ _ hf).2
        · rcases validateOpt_ok_inv _ _ _ h8 with ⟨hv, -⟩ | ⟨a0, b0, ha0, hb0, hf⟩
          · rw [hv]; trivial
          · rw [ha0]
            simp only [optionHolds]
            exact (_validate_range_ok_inv _ _ _ _ _ hf).2
        · rcases validateOpt_ok_inv _ _ _ h9 with ⟨hv, -⟩ | ⟨a0, b0, ha0, hb0, hf⟩
          · rw [hv]; trivial
          · rw [ha0]
            simp only [optionHolds]
            exact (_validate_range_ok_inv _ _ _ _ _ hf).2
        · rcases validateOpt_ok_inv _ _ _ h10 with ⟨hv, -⟩ | ⟨a0, b0, ha0, hb0, hf⟩
          · rw [hv]; trivial
          · rw [ha0]
            simp only [optionHolds]
            exact (_validate_range_ok_inv _ _ _ _ _ hf).2
        · rcases validateOpt_ok_inv _ _ _ h11 with ⟨hv, -⟩ | ⟨a0, b0, ha0, hb0, hf⟩
          · rw [hv]; trivial
          · rw [ha0]
            simp only [optionHolds]
            exact (_validate_range_ok_inv _ _ _ _ _ hf).2
        · rcases validateOpt_ok_inv _ _ _ h12 with ⟨hv, -⟩ | ⟨a0, b0, ha0, hb0, hf⟩
          · rw [hv]; trivial
          · rw [ha0]
            simp only [optionHolds]
            exact (_validate_range_ok_inv _ _ _ _ _ hf).2
  · -- Content: error → named invalid field
    intro y e h
    rcases Content_init_error_inv y e h with h | h | h | h | h | h | h | h | h | h | h | h
    · obtain ⟨a0, ha0, hf⟩ := validateOpt_error_inv _ _ _ h
      obtain ⟨hbad, hmsg⟩ := _validate_education_error_inv _ _ hf
      refine ⟨"education", ?_, ?_⟩
      · show ¬ optionHolds _ y.education
        rw [ha0]
        simpa [optionHolds] using hbad
      · show e = _
        simp only [contentErrMsg]
        rw [ha0, hmsg]
        rfl
    · obtain ⟨a0, ha0, hf⟩ := validateOpt_error_inv _ _ _ h
      obtain ⟨hbad, hmsg⟩ := _validate_economic_status_error_inv _ _ hf
      refine ⟨"economic_status", ?_, ?_⟩
      · show ¬ optionHolds _ y.economic_status
        rw [ha0]
        simpa [optionHolds] using hbad
      · show e = _
        simp only [contentErrMsg]
        rw [ha0, hmsg]
        rfl
    · obtain ⟨a0, ha0, hf⟩ := validateOpt_error_inv _ _ _ h
      obtain ⟨hbad, hmsg⟩ := _validate_range_error_inv _ _ _ _ _ hf
      refine ⟨"ethics", ?_, ?_⟩
      · show ¬ optionHolds _ y.ethics
        rw [ha0]
        simpa [optionHolds] using hbad
      · show e = _
        simp only [contentErrMsg]
        rw [ha0, hmsg]
        rfl
    · obtain ⟨a0, ha0, hf⟩ := validateOpt_error_inv _ _ _ h
      obtain ⟨hbad, hmsg⟩ := _validate_politics_error_inv _ _ hf
      refine ⟨"politics", ?_, ?_⟩
      · show ¬ optionHolds _ y.politics
        rw [ha0]
        simpa [optionHolds] using hbad
      · show e = _
        simp only [contentErrMsg]
        rw [ha0, hmsg]
        rfl
    · obtain ⟨a0, ha0, hf⟩ := validateOpt_error_inv _ _ _ h
      obtain ⟨hbad, s, hs, hmsg⟩ := coerce_cultural_error_inv _ _ hf
      refine ⟨"cultural", ?_, ?_⟩
      · show ¬ optionHolds _ y.cultural
        rw [ha0]
        simpa [optionHolds] using hbad
      · show e = _
        simp only [contentErrMsg]
        rw [ha0, hs, hmsg]
    · obtain ⟨a0, ha0, hf⟩ := validateOpt_error_inv _ _ _ h
      obtain ⟨hbad, hmsg⟩ := _validate_age_error_inv _ _ hf
      refine ⟨"age", ?_, ?_⟩
      · show ¬ optionHolds _ y.age
        rw [ha0]
        simpa [optionHolds] using hbad
      · show e = _
        simp only [contentErrMsg]
        rw [ha0, hmsg]
        rfl
    · obtain ⟨a0, ha0, hf⟩ := validateOpt_error_inv _ _ _ h
      obtain ⟨hbad, hmsg⟩ := content_validate_sex_error_inv _ _ hf
      refine ⟨"sex", ?_, ?_⟩
      · show ¬ optionHolds _ y.sex
        rw [ha0]
        simpa [optionHolds] using hbad
      · show e = _
        simp only [contentErrMsg]
        rw [ha0, hmsg]
        rfl
    · obtain ⟨a0, ha0, hf⟩ := validateOpt_error_inv _ _ _ h
      obtain ⟨hbad, hmsg⟩ := _validate_range_error_inv _ _ _ _ _ hf
      refine ⟨"novelty", ?_, ?_⟩
      · show ¬ optionHolds _ y.novelty
        rw [ha0]
        simpa [optionHolds] using hbad
      · show e = _
        simp only [contentErrMsg]
        rw [ha0, hmsg]
        rfl
    · obtain ⟨a0, ha0, hf⟩ := validateOpt_error_inv _ _ _ h
      obtain ⟨hbad, hmsg⟩ := _validate_range_error_inv _ _ _ _ _ hf
      refine ⟨"conscientiousness", ?_, ?_⟩
      · show ¬ optionHolds _ y.conscientiousness
        rw [ha0]
        simpa [optionHolds] using hbad
      · show e = _
        simp only [contentErrMsg]
        rw [ha0, hmsg]
        rfl
    · obtain ⟨a0, ha0, hf⟩ := validateOpt_error_inv _ _ _ h
      obtain ⟨hbad, hmsg⟩ := _validate_range_error_inv _ _ _ _ _ hf
      refine ⟨"impulsivity", ?_, ?_⟩
      · show ¬ optionHolds _ y.impulsivity
        rw [ha0]
        simpa [optionHolds] using hbad
      · show e = _
        simp only [contentErrMsg]
        rw [ha0, hmsg]
        rfl
    · obtain ⟨a0, ha0, hf⟩ := validateOpt_error_inv _ _ _ h
      obtain ⟨hbad, hmsg⟩ := _validate_range_error_inv _ _ _ _ _ hf
      refine ⟨"tech_affinity", ?_, ?_⟩
      · show ¬ optionHolds _ y.tech_affinity
        rw [ha0]
        simpa [optionHolds] using hbad
      · show e = _
        simp only [contentErrMsg]
        rw [ha0, hmsg]
        rfl
    · obtain ⟨a0, ha0, hf⟩ := validateOpt_error_inv _ _ _ h
      obtain ⟨hbad, hmsg⟩ := _validate_range_error_inv _ _ _ _ _ hf
      refine ⟨"social_trust", ?_, ?_⟩
      · show ¬ optionHolds _ y.social_trust
        rw [ha0]
        simpa [optionHolds] using hbad
      · show e = _
        simp only [contentErrMsg]
        rw [ha0, hmsg]
        rfl

/-- Witness for C7: a fully valid agent argument record, one with an
out-of-range `ethics`, a partially specified valid Content and a Content
whose `sex` is 2. -/
theorem C7_construction_validates_atomically_witness :
    agentBounds
      { agent_id := "00000000-0000-4000-8000-000000000000", education := 3,
        economic_status := (round_half_even ((250000 : ℚ) / 5000) : ℚ) * 5000,
        ethics := 0, politics := 1, cultural := .western, age := 30, sex := 2,
        novelty := 1, conscientiousness := 0, impulsivity := 1, tech_affinity := 0,
        social_trust := 1 } ∧
    (agentArgsValid
      { education := 3, economic_status := 250000, ethics := 0, politics := 1,
        cultural := .enum .western, age := 30, sex := 2, novelty := 1,
        conscientiousness := 0, impulsivity := 1, tech_affinity := 0,
        social_trust := 1 } ↔
      (Agent.init
        { education := 3, economic_status := 250000, ethics := 0, politics := 1,
          cultural := .enum .western, age := 30, sex := 2, novelty := 1,
          conscientiousness := 0, impulsivity := 1, tech_affinity := 0,
          social_trust := 1 }).isOk = true) ∧
    (∃ fld,
      agentFieldInvalid
        { education := 3, economic_status := 250000, ethics := 2, politics := 1,
          cultural := .enum .western, age := 30, sex := 2, novelty := 1,
          conscientiousness := 0, impulsivity := 1, tech_affinity := 0,
          social_trust := 1 } fld ∧
      agentErrMsg
        { education := 3, economic_status := 250000, ethics := 2, politics := 1,
          cultural := .enum .western, age := 30, sex := 2, novelty := 1,
          conscientiousness := 0, impulsivity := 1, tech_affinity := 0,
          social_trust := 1 } "ethics" =
      agentErrMsg
        { education := 3, economic_status := 250000, ethics := 2, politics := 1,
          cultural := .enum .western, age := 30, sex := 2, novelty := 1,
          conscientiousness := 0, impulsivity := 1, tech_affinity := 0,
          social_trust := 1 } fld) ∧
    contentBounds
      { content_id := "00000000-0000-4000-8000-000000000001",
        education := Option.none, economic_status := Option.none,
        ethics := some 0, politics := Option.none, cultural := Option.none,
        age := Option.none, sex := some 1, novelty := Option.none,
        conscientiousness := Option.none, impulsivity := Option.none,
        tech_affinity := Option.none, social_trust := Option.none } ∧
    (contentArgsValid { ethics := some 0, sex := some 1 } ↔
      (Content.init { ethics := some 0, sex := some 1 }).isOk = true) ∧
    (∃ fld, contentFieldInvalid { sex := some 2 } fld ∧
      contentErrMsg { sex := some 2 } "sex" =
        contentErrMsg { sex := some 2 } fld) := by
  obtain ⟨p1, p2, p3, p4, p5, p6⟩ := C7_construction_validates_atomically
  refine ⟨?_, p2 _, ?_, ?_, p5 _, ?_⟩
  · exact p1
      { education := 3, economic_status := 250000, ethics := 0, politics := 1,
        cultural := .enum .western, age := 30, sex := 2, novelty := 1,
        conscientiousness := 0, impulsivity := 1, tech_affinity := 0,
        social_trust := 1 } _ rfl
  · exact p3
      { education := 3, economic_status := 250000, ethics := 2, politics := 1,
        cultural := .enum .western, age := 30, sex := 2, novelty := 1,
        conscientiousness := 0, impulsivity := 1, tech_affinity := 0,
        social_trust := 1 } _ rfl
  · exact p4 { ethics := some 0, sex := some 1 } _ rfl
  · exact p6 { sex := some 2 } _ rfl

/-- **C8.** For every income in [10000, 500000] the stored
`economic_status` — produced by the rounding validator shared verbatim by
`Agent.__init__` and `Content.__init__` — is an exact multiple of 5000 and
lies within 2500 of the input. -/
theorem C8_income_rounds_to_5000_within_2500 (v : ℚ)
    (h1 : 10000 ≤ v) (h2 : v ≤ 500000) :
    ∃ w, _validate_economic_status v = .ok w ∧
      (∃ k : ℤ, w = 5000 * (k : ℚ)) ∧ |w - v| ≤ 2500 ∧
      (∀ (x : AgentArgs) (a : Agent), x.economic_status = v →
        Agent.init x = .ok a → a.economic_status = w) ∧
      (∀ (y : ContentArgs) (cnt : Content), y.economic_status = some v →
        Content.init y = .ok cnt → cnt.economic_status = some w) := by
  refine ⟨(round_half_even (v / 5000) : ℚ) * 5000,
    _validate_economic_status_ok_of v ⟨h1, h2⟩,
    ⟨round_half_even (v / 5000), by ring⟩, ?_, ?_, ?_⟩
  · have hclose := round_half_even_close (v / 5000)
    rw [abs_le] at hclose ⊢
    have hv : v / 5000 * 5000 = v := div_mul_cancel₀ v (by norm_num)
    constructor
    · linarith [hclose.1]
    · linarith [hclose.2]
  · intro x a hx hinit
    have h2' := (Agent_init_ok_inv x a hinit).2.1
    rw [hx, _validate_economic_status_ok_of v ⟨h1, h2⟩] at h2'
    exact ((Except.ok.injEq _ _).mp h2').symm
  · intro y cnt hy hinit
    have h2' := (Content_init_ok_inv y cnt hinit).2.1
    rw [hy, validateOpt_ok_some _ v _ (_validate_economic_status_ok_of v ⟨h1, h2⟩)] at h2'
    exact ((Except.ok.injEq _ _).mp h2').symm

/-- Witness for C8 at the non-multiple income 12344. -/
theorem C8_income_rounds_to_5000_within_2500_witness :
    (10000 ≤ (12344 : ℚ)) ∧ ((12344 : ℚ) ≤ 500000) ∧
    ∃ w, _validate_economic_status 12344 = .ok w ∧
      (∃ k : ℤ, w = 5000 * (k : ℚ)) ∧ |w - 12344| ≤ 2500 ∧
      (∀ (x : AgentArgs) (a : Agent), x.economic_status = 12344 →
        Agent.init x = .ok a → a.economic_status = w) ∧
      (∀ (y : ContentArgs) (cnt : Content), y.economic_status = some 12344 →
        Content.init y = .ok cnt → cnt.economic_status = some w) :=
  ⟨by decide, by decide,
    C8_income_rounds_to_5000_within_2500 12344 (by decide) (by decide)⟩
